import Mathlib

/-!
# The si4455 radio driver (OSS-7 / DASH7 stack): state machine and interrupt dispatcher

A shallow embedding of `stack/framework/hal/chips/si4455/si4455.c`.

* The file-scope `static` variables of the driver are the fields of `Driver`.
* Every driver function is a Lean function from the driver variables before the call to an
  `Outcome`: the driver variables after the call, the list of externally visible actions
  performed by the call, in order (`Event`: chip commands, platform calls, invocations of the
  registered callbacks, calls of the driver's own `configure_*` stubs and writes of
  `current_state`), and how the call ended (`Status`: it returned a value, an `assert` failed,
  or a NULL pointer was used).
* Function pointers are `Option Nat`: `none` is `NULL`, `some f` is the callback at address `f`.
  Callbacks are code of the upper layers; an invocation is recorded as an event, and the body
  of a callback is taken not to call back into the driver.
* What the chip and the platform answer during one driver call is the `Platform` argument.
* `DPRINT`, the `log_print_*` calls and the `DEBUG_*` pin macros are diagnostics and are left
  out.
-/

namespace Si4455

/-! ## Data model -/

/-- The possible states the radio can be in (`hw_radio_state_t`, si4455.c lines 66-71). -/
inductive hw_radio_state_t
  | HW_RADIO_STATE_IDLE
  | HW_RADIO_STATE_TX
  | HW_RADIO_STATE_RX
  deriving DecidableEq, Repr

open hw_radio_state_t

/-- Modelled from the spec: `error_t` and its values are declared in a header that is not among
the sources; these are the three values the driver returns. -/
inductive error_t
  | SUCCESS
  | ERROR
  | EBUSY
  deriving DecidableEq, Repr

open error_t

/-- Modelled from the spec: the channel header of a `channel_id_t` (frequency band, rate class,
coding); the enumerations are C integers. -/
structure channel_header_t where
  ch_coding : Nat
  ch_class : Nat
  ch_freq_band : Nat
  deriving DecidableEq, Repr

/-- Modelled from the spec: `channel_id_t`, a channel header and a center-frequency index. -/
structure channel_id_t where
  channel_header : channel_header_t
  center_freq_index : Nat
  deriving DecidableEq, Repr

/-- Modelled from the spec: `hw_rx_cfg_t`, the input of entering RX: a channel id and a
sync-word class. -/
structure hw_rx_cfg_t where
  channel_id : channel_id_t
  syncword_class : Nat
  deriving DecidableEq, Repr

/-- Modelled from the spec: `hw_tx_cfg_t`: channel id, sync-word class and transmit power. -/
structure hw_tx_cfg_t where
  channel_id : channel_id_t
  syncword_class : Nat
  eirp : Int
  deriving DecidableEq, Repr

/-- Modelled from the spec: the CRC status of a received packet. -/
inductive hw_crc_t
  | HW_CRC_VALID
  | HW_CRC_INVALID
  | HW_CRC_UNAVAILABLE
  deriving DecidableEq, Repr

/-- Modelled from the spec: `rx_meta` of a packet: rssi, link quality, channel id (inside the
receive configuration), CRC status and timestamp. -/
structure hw_rx_metadata_t where
  timestamp : Nat
  rx_cfg : hw_rx_cfg_t
  lqi : Nat
  rssi : Int
  crc_status : hw_crc_t
  deriving DecidableEq, Repr

/-- Modelled from the spec: `tx_meta` of a packet: the transmit configuration and the
timestamp of the completed transmission. -/
structure hw_tx_metadata_t where
  timestamp : Nat
  tx_cfg : hw_tx_cfg_t
  deriving DecidableEq, Repr

/-- Modelled from the spec: `hw_radio_packet_t`, a byte buffer with its length and the receive
and transmit metadata. A `hw_radio_packet_t*` of the C code is the packet it points to. -/
structure hw_radio_packet_t where
  rx_meta : hw_rx_metadata_t
  tx_meta : hw_tx_metadata_t
  length : Nat
  data : List Nat
  deriving DecidableEq, Repr

/-- The file-scope variables of si4455.c (lines 75-93). -/
structure Driver where
  alloc_packet_callback : Option Nat
  release_packet_callback : Option Nat
  rx_packet_callback : Option Nat
  tx_packet_callback : Option Nat
  rssi_valid_callback : Option Nat
  current_state : hw_radio_state_t
  current_packet : Option hw_radio_packet_t
  current_channel_id : channel_id_t
  current_syncword_class : Nat
  current_eirp : Int
  should_rx_after_tx_completed : Bool
  pending_rx_cfg : hw_rx_cfg_t
  deriving DecidableEq, Repr

/-- The enumerators named in the initialisers of lines 82-89; their values are declared in a
header that is not among the sources, so they are parameters of the initial state. -/
structure phy_enumerators where
  PHY_CODING_PN9 : Nat
  PHY_CLASS_NORMAL_RATE : Nat
  PHY_BAND_433 : Nat
  PHY_SYNCWORD_CLASS0 : Nat

/-- The driver variables at program start: the initialisers of lines 82-92, every other static
variable zero (C static storage): callbacks and `current_packet` NULL, `current_state` the
first enumerator, `pending_rx_cfg` all zero. -/
def Driver.initial (k : phy_enumerators) : Driver :=
  { alloc_packet_callback := none
    release_packet_callback := none
    rx_packet_callback := none
    tx_packet_callback := none
    rssi_valid_callback := none
    current_state := HW_RADIO_STATE_IDLE
    current_packet := none
    current_channel_id :=
      { channel_header :=
          { ch_coding := k.PHY_CODING_PN9
            ch_class := k.PHY_CLASS_NORMAL_RATE
            ch_freq_band := k.PHY_BAND_433 }
        center_freq_index := 0 }
    current_syncword_class := k.PHY_SYNCWORD_CLASS0
    current_eirp := 0
    should_rx_after_tx_completed := false
    pending_rx_cfg :=
      { channel_id :=
          { channel_header := { ch_coding := 0, ch_class := 0, ch_freq_band := 0 }
            center_freq_index := 0 }
        syncword_class := 0 } }

/-- The bit masks of `ezradio_cmd.h` used by the interrupt callback; the header is not among
the sources, so the masks are parameters. A bit of `x` is set when `x &&& mask ≠ 0`. -/
structure ezradio_cmd_h where
  EZRADIO_CMD_GET_INT_STATUS_REP_INT_PEND_MODEM_INT_PEND_BIT : Nat
  EZRADIO_CMD_GET_INT_STATUS_REP_INT_PEND_PH_INT_PEND_BIT : Nat
  EZRADIO_CMD_GET_INT_STATUS_REP_INT_PEND_CHIP_INT_PEND_BIT : Nat
  EZRADIO_CMD_GET_INT_STATUS_REP_PH_PEND_PACKET_RX_PEND_BIT : Nat
  EZRADIO_CMD_GET_INT_STATUS_REP_PH_PEND_PACKET_SENT_PEND_BIT : Nat
  EZRADIO_CMD_GET_INT_STATUS_REP_CHIP_STATUS_STATE_CHANGE_BIT : Nat
  EZRADIO_CMD_FIFO_INFO_ARG_FIFO_RX_BIT : Nat

/-- The reply of the chip to `ezradio_get_int_status` (the fields read at lines 315-322). -/
structure GET_INT_STATUS_reply where
  INT_PEND : Nat
  INT_STATUS : Nat
  PH_PEND : Nat
  PH_STATUS : Nat
  MODEM_PEND : Nat
  MODEM_STATUS : Nat
  CHIP_PEND : Nat
  CHIP_STATUS : Nat
  deriving DecidableEq, Repr

/-- What the chip, the platform timer and the registered allocator answer during one driver
call: the replies to `ezradio_part_info` (the part number; `none`: the chip does not answer
the identification, there is no valid part), `ezradio_get_int_status`, `ezradio_fifo_info`,
`ezradio_get_modem_status` and `ezradio_read_rx_fifo`, the value of
`timer_get_counter_value()`, and the packet the allocator returns for a length (`none`: it
returns NULL). -/
structure Platform where
  PART_INFO_PART : Option Nat
  GET_INT_STATUS : GET_INT_STATUS_reply
  RX_FIFO_COUNT : Nat
  CURR_RSSI : Nat
  LATCH_RSSI : Nat
  rx_fifo : List Nat
  timer_counter_value : Nat
  alloc_packet : Nat → Option hw_radio_packet_t

/-- The externally visible actions of the driver. -/
inductive Event
  /-- an assignment to `current_state` -/
  | write_current_state (st : hw_radio_state_t)
  /-- a call of the (unimplemented) `configure_channel` -/
  | configure_channel (channel_id : channel_id_t)
  /-- a call of the (unimplemented) `configure_eirp` -/
  | configure_eirp (eirp : Int)
  /-- a call of the (unimplemented) `configure_syncword_class` -/
  | configure_syncword_class (syncword_class : Nat)
  | ezradioInit
  | ezradio_part_info
  | ezradioResetTRxFifo
  | ezradioStartTx (packet : hw_radio_packet_t) (channel : Nat) (rx_after : Bool)
  | ezradioStartRx (channel : Nat)
  | ezradio_get_modem_status (clr : Nat)
  | ezradio_get_int_status (ph_clr modem_clr chip_clr : Nat)
  | ezradio_fifo_info (fifo : Nat)
  | ezradio_get_packet_info (field_number_mask len diff_len : Nat)
  | ezradio_read_rx_fifo (numBytes : Nat)
  | ezradio_request_device_state
  | hw_busy_wait (microseconds : Nat)
  | timer_get_counter_value
  /-- the allocator at address `f` is called with a length -/
  | alloc_packet_callback (f : Nat) (length : Nat)
  | release_packet_callback (f : Nat) (packet : hw_radio_packet_t)
  | rx_packet_callback (f : Nat) (packet : hw_radio_packet_t)
  | tx_packet_callback (f : Nat) (packet : hw_radio_packet_t)
  | rssi_valid_callback (f : Nat) (rssi : Int)
  deriving DecidableEq, Repr

/-- How a driver call ended. -/
inductive Status (α : Type)
  /-- the function returned `v` -/
  | returned (v : α)
  /-- an `assert` of the function failed -/
  | assertion_failed
  /-- a NULL pointer was called or dereferenced -/
  | null_pointer_used
  deriving DecidableEq, Repr

/-- The result of running a driver function: the driver variables when it ended, the actions
it performed, and how it ended. -/
structure Outcome (α : Type) where
  drv : Driver
  events : List Event
  status : Status α
  deriving DecidableEq, Repr

/-! ## The driver functions -/

/-- `#define RSSI_OFFSET 0` (line 50). -/
def RSSI_OFFSET : Int := 0

/-- Conversion of an integer to `int16_t` (two's complement wrap-around). -/
def to_int16_t (x : Int) : Int := (x + 32768) % 65536 - 32768

/-- `convert_rssi` (lines 301-304); the argument is a `uint8_t`. -/
def convert_rssi (rssi_raw : Nat) : Int :=
  to_int16_t (to_int16_t (((rssi_raw % 256) >>> 1 : Nat) : Int) - (130 + RSSI_OFFSET))

/-- `configure_channel` (lines 100-103): not implemented, only the call is recorded. -/
def configure_channel (channel_id : channel_id_t) : List Event :=
  [Event.configure_channel channel_id]

/-- `configure_eirp` (lines 105-108): not implemented, only the call is recorded. -/
def configure_eirp (eirp : Int) : List Event :=
  [Event.configure_eirp eirp]

/-- `configure_syncword_class` (lines 110-113): not implemented, only the call is recorded. -/
def configure_syncword_class (syncword_class : Nat) : List Event :=
  [Event.configure_syncword_class syncword_class]

/-- `switch_to_idle_mode` (lines 115-119). -/
def switch_to_idle_mode (s : Driver) : Driver × List Event :=
  ({ s with current_state := HW_RADIO_STATE_IDLE },
   [Event.write_current_state HW_RADIO_STATE_IDLE])

/-- `hw_radio_get_rssi` (lines 239-248). -/
def hw_radio_get_rssi (hw : Platform) (s : Driver) : Outcome Int :=
  { drv := s
    events := [Event.ezradio_get_modem_status 0]
    status := Status.returned (convert_rssi hw.CURR_RSSI) }

/-- `hw_radio_get_latched_rssi` (lines 250-259). -/
def hw_radio_get_latched_rssi (hw : Platform) (s : Driver) : Outcome Int :=
  { drv := s
    events := [Event.ezradio_get_modem_status 0]
    status := Status.returned (convert_rssi hw.LATCH_RSSI) }

/-- `hw_radio_set_idle` (lines 261-264). -/
def hw_radio_set_idle (s : Driver) : Outcome error_t :=
  { drv := s, events := [], status := Status.returned ERROR }

/-- `start_rx` (lines 266-299). -/
def start_rx (hw : Platform) (rx_cfg : hw_rx_cfg_t) (s : Driver) : Driver × List Event :=
  let s1 := { s with current_state := HW_RADIO_STATE_RX }
  let ev :=
    [Event.write_current_state HW_RADIO_STATE_RX]
      ++ configure_channel rx_cfg.channel_id
      ++ configure_syncword_class rx_cfg.syncword_class
      ++ [Event.ezradioStartRx (s1.current_channel_id.center_freq_index % 256)]
  match s1.rssi_valid_callback with
  | none => (s1, ev)
  | some f =>
    (s1, ev ++ [Event.hw_busy_wait 200]
            ++ (hw_radio_get_rssi hw s1).events
            ++ [Event.rssi_valid_callback f (convert_rssi hw.CURR_RSSI)])

/-- `hw_radio_init` (lines 135-165). The reply of the chip to `ezradio_part_info` is read at
line 154 only to be printed. The function has no `return` statement: it returns no defined
value, which is `none`. -/
def hw_radio_init (hw : Platform) (alloc_packet_cb release_packet_cb : Option Nat)
    (s : Driver) : Outcome (Option error_t) :=
  let s1 := { s with alloc_packet_callback := alloc_packet_cb
                     release_packet_callback := release_packet_cb
                     current_state := HW_RADIO_STATE_IDLE }
  let _PART := hw.PART_INFO_PART
  { drv := s1
    events :=
      [Event.write_current_state HW_RADIO_STATE_IDLE,
       Event.ezradioInit, Event.ezradio_part_info, Event.ezradioResetTRxFifo]
        ++ configure_channel s1.current_channel_id
        ++ configure_eirp s1.current_eirp
        ++ configure_syncword_class s1.current_syncword_class
    status := Status.returned none }

/-- `hw_radio_set_rx` (lines 167-193). -/
def hw_radio_set_rx (hw : Platform) (rx_cfg : hw_rx_cfg_t)
    (rx_cb rssi_valid_cb : Option Nat) (s : Driver) : Outcome error_t :=
  if rx_cb ≠ none ∧ s.alloc_packet_callback = none then
    { drv := s, events := [], status := Status.assertion_failed }
  else if rx_cb ≠ none ∧ s.release_packet_callback = none then
    { drv := s, events := [], status := Status.assertion_failed }
  else
    let s1 := { s with rx_packet_callback := rx_cb, rssi_valid_callback := rssi_valid_cb }
    if s1.current_state = HW_RADIO_STATE_TX then
      { drv := { s1 with should_rx_after_tx_completed := true, pending_rx_cfg := rx_cfg }
        events := []
        status := Status.returned SUCCESS }
    else
      let r := start_rx hw rx_cfg s1
      { drv := r.1, events := r.2, status := Status.returned SUCCESS }

/-- `hw_radio_send_packet` (lines 196-237). -/
def hw_radio_send_packet (packet : hw_radio_packet_t) (tx_cb : Option Nat) (s : Driver) :
    Outcome error_t :=
  if s.current_state = HW_RADIO_STATE_TX then
    { drv := s, events := [], status := Status.returned EBUSY }
  else if ¬ packet.length < 63 then
    { drv := s, events := [], status := Status.assertion_failed }
  else
    let s1 := { s with tx_packet_callback := tx_cb }
    let s2 :=
      if s1.current_state = HW_RADIO_STATE_RX then
        { s1 with
          pending_rx_cfg :=
            { s1.pending_rx_cfg with
              channel_id := s1.current_channel_id
              syncword_class := s1.current_syncword_class }
          should_rx_after_tx_completed := true }
      else s1
    let s3 := { s2 with current_state := HW_RADIO_STATE_TX, current_packet := some packet }
    { drv := s3
      events :=
        [Event.write_current_state HW_RADIO_STATE_TX]
          ++ configure_channel packet.tx_meta.tx_cfg.channel_id
          ++ configure_eirp packet.tx_meta.tx_cfg.eirp
          ++ configure_syncword_class packet.tx_meta.tx_cfg.syncword_class
          ++ [Event.ezradioStartTx packet (s3.current_channel_id.center_freq_index % 256)
                s3.should_rx_after_tx_completed]
      status := Status.returned SUCCESS }

/-- The packet of the receive branch after lines 348-362: length, FIFO content and `rx_meta`
filled in. -/
def fill_rx_packet (hw : Platform) (s : Driver) (packet : hw_radio_packet_t) :
    hw_radio_packet_t :=
  { packet with
    length := hw.RX_FIFO_COUNT
    data := hw.rx_fifo.take hw.RX_FIFO_COUNT ++ packet.data.drop hw.RX_FIFO_COUNT
    rx_meta :=
      { packet.rx_meta with
        rssi := convert_rssi hw.LATCH_RSSI
        lqi := 0
        rx_cfg := { packet.rx_meta.rx_cfg with channel_id := s.current_channel_id }
        crc_status := hw_crc_t.HW_CRC_UNAVAILABLE
        timestamp := hw.timer_counter_value } }

/-- The `case HW_RADIO_STATE_RX` of the interrupt callback (lines 334-396). The test of the
packet-received bit at line 335 guards only a diagnostic print. -/
def ezradio_int_callback_rx (k : ezradio_cmd_h) (hw : Platform) (s : Driver) : Outcome Unit :=
  let ev1 := [Event.ezradio_fifo_info 0, Event.ezradio_get_packet_info 0 0 0]
  match s.alloc_packet_callback with
  | none => { drv := s, events := ev1, status := Status.null_pointer_used }
  | some a =>
    let ev2 := ev1 ++ [Event.alloc_packet_callback a hw.RX_FIFO_COUNT]
    match hw.alloc_packet hw.RX_FIFO_COUNT with
    | none => { drv := s, events := ev2, status := Status.null_pointer_used }
    | some packet0 =>
      let packet := fill_rx_packet hw s packet0
      let ev3 := ev2 ++ [Event.ezradio_read_rx_fifo hw.RX_FIFO_COUNT]
                     ++ (hw_radio_get_latched_rssi hw s).events
                     ++ [Event.timer_get_counter_value]
                     ++ [Event.ezradio_fifo_info k.EZRADIO_CMD_FIFO_INFO_ARG_FIFO_RX_BIT]
      let deliver : Option (List Event) :=
        match s.rx_packet_callback with
        | some f => some [Event.rx_packet_callback f packet]
        | none =>
          match s.release_packet_callback with
          | some g => some [Event.release_packet_callback g packet]
          | none => none
      match deliver with
      | none => { drv := s, events := ev3, status := Status.null_pointer_used }
      | some ev4 =>
        if s.current_state = HW_RADIO_STATE_RX then
          let r := start_rx hw s.pending_rx_cfg s
          { drv := r.1, events := ev3 ++ ev4 ++ r.2, status := Status.returned () }
        else
          { drv := s, events := ev3 ++ ev4, status := Status.returned () }

/-- The packet-sent branch of `case HW_RADIO_STATE_TX` of the interrupt callback
(lines 399-421). -/
def ezradio_int_callback_tx (hw : Platform) (s : Driver) : Outcome Unit :=
  let r1 := if ¬ s.should_rx_after_tx_completed then switch_to_idle_mode s else (s, [])
  let s1 := r1.1
  match s1.current_packet with
  | none => { drv := s1, events := r1.2, status := Status.null_pointer_used }
  | some packet0 =>
    let packet :=
      { packet0 with tx_meta := { packet0.tx_meta with timestamp := hw.timer_counter_value } }
    let s2 := { s1 with current_packet := some packet }
    let ev2 := r1.2 ++ [Event.timer_get_counter_value]
    let ev3 :=
      match s2.tx_packet_callback with
      | some f => ev2 ++ [Event.tx_packet_callback f packet]
      | none => ev2
    if s2.should_rx_after_tx_completed then
      let s3 := { s2 with should_rx_after_tx_completed := false }
      let r := start_rx hw s3.pending_rx_cfg s3
      { drv := r.1, events := ev3 ++ r.2, status := Status.returned () }
    else
      { drv := s2, events := ev3, status := Status.returned () }

/-- The packet-handler part of the interrupt callback (lines 329-430). -/
def ezradio_int_callback_ph (k : ezradio_cmd_h) (hw : Platform) (s : Driver) : Outcome Unit :=
  if hw.GET_INT_STATUS.INT_PEND
      &&& k.EZRADIO_CMD_GET_INT_STATUS_REP_INT_PEND_PH_INT_PEND_BIT ≠ 0 then
    match s.current_state with
    | HW_RADIO_STATE_RX => ezradio_int_callback_rx k hw s
    | HW_RADIO_STATE_TX =>
      if hw.GET_INT_STATUS.PH_PEND
          &&& k.EZRADIO_CMD_GET_INT_STATUS_REP_PH_PEND_PACKET_SENT_PEND_BIT ≠ 0 then
        ezradio_int_callback_tx hw s
      else
        { drv := s, events := [], status := Status.returned () }
    | HW_RADIO_STATE_IDLE => { drv := s, events := [], status := Status.returned () }
  else
    { drv := s, events := [], status := Status.returned () }

/-- The chip-interrupt part of the interrupt callback (lines 432-447): diagnostics only. -/
def ezradio_int_callback_chip (k : ezradio_cmd_h) (hw : Platform) (s : Driver) : List Event :=
  if hw.GET_INT_STATUS.INT_PEND
      &&& k.EZRADIO_CMD_GET_INT_STATUS_REP_INT_PEND_CHIP_INT_PEND_BIT ≠ 0 then
    if s.current_state ≠ HW_RADIO_STATE_IDLE then
      if hw.GET_INT_STATUS.CHIP_STATUS
          &&& k.EZRADIO_CMD_GET_INT_STATUS_REP_CHIP_STATUS_STATE_CHANGE_BIT ≠ 0 then
        [Event.ezradio_request_device_state]
      else []
    else []
  else []

/-- `ezradio_int_callback` (lines 306-450), the interrupt dispatcher. -/
def ezradio_int_callback (k : ezradio_cmd_h) (hw : Platform) (s : Driver) : Outcome Unit :=
  let ev0 := [Event.ezradio_get_int_status 0 0 0]
  let ph := ezradio_int_callback_ph k hw s
  match ph.status with
  | Status.returned _ =>
    { drv := ph.drv
      events := ev0 ++ ph.events ++ ezradio_int_callback_chip k hw ph.drv
      status := Status.returned () }
  | Status.assertion_failed =>
    { drv := ph.drv, events := ev0 ++ ph.events, status := Status.assertion_failed }
  | Status.null_pointer_used =>
    { drv := ph.drv, events := ev0 ++ ph.events, status := Status.null_pointer_used }

/-- The loop of `byte_to_binary` (lines 127-130), entered with the mask `z`, the string `b`
built so far and the number of iterations done so far: while `z > 0`, `strcat` appends "1" if
`(x & z) == z` and "0" otherwise, and `z >>= 1` on the `uint8_t` mask. Returns the string and
the number of iterations when the loop is left. -/
def byte_to_binary_loop (x z : Nat) (b : List Char) (iterations : Nat) : List Char × Nat :=
  if z > 0 then
    byte_to_binary_loop x ((z >>> 1) % 256)
      (b ++ (if x &&& z = z then ['1'] else ['0'])) (iterations + 1)
  else
    (b, iterations)
termination_by z
decreasing_by
  simp only [Nat.shiftRight_eq_div_pow]
  omega

/-- `byte_to_binary` (lines 121-133); the argument is a `uint8_t`, the buffer starts as the
empty string (`b[0] = 0`) and the mask at 128. The result is the string in `b`, without its
terminator. -/
def byte_to_binary (x : Nat) : List Char :=
  (byte_to_binary_loop (x % 256) 128 [] 0).1

/-- The number of iterations of the loop of `byte_to_binary`. -/
def byte_to_binary_iterations (x : Nat) : Nat :=
  (byte_to_binary_loop (x % 256) 128 [] 0).2

/-! ## Sequences of driver calls -/

/-- One entry into the driver: a call of a public function by the upper layers, or the
interrupt of the chip. -/
inductive Call
  | hw_radio_init (hw : Platform) (alloc_packet_cb release_packet_cb : Option Nat)
  | hw_radio_set_rx (hw : Platform) (rx_cfg : hw_rx_cfg_t) (rx_cb rssi_valid_cb : Option Nat)
  | hw_radio_send_packet (packet : hw_radio_packet_t) (tx_cb : Option Nat)
  | hw_radio_set_idle
  | hw_radio_get_rssi (hw : Platform)
  | hw_radio_get_latched_rssi (hw : Platform)
  | ezradio_int_callback (hw : Platform)

/-- The driver variables after a call that returned (`none`: the call ended in a failed
assertion or used a NULL pointer, and the program does not continue). -/
def after {α : Type} (o : Outcome α) : Option Driver :=
  match o.status with
  | Status.returned _ => some o.drv
  | Status.assertion_failed => none
  | Status.null_pointer_used => none

/-- Runs one call. -/
def Call.exec (k : ezradio_cmd_h) (c : Call) (s : Driver) : Option Driver :=
  match c with
  | Call.hw_radio_init hw a r => after (Si4455.hw_radio_init hw a r s)
  | Call.hw_radio_set_rx hw cfg rx_cb rssi_cb => after (Si4455.hw_radio_set_rx hw cfg rx_cb rssi_cb s)
  | Call.hw_radio_send_packet p tx_cb => after (Si4455.hw_radio_send_packet p tx_cb s)
  | Call.hw_radio_set_idle => after (Si4455.hw_radio_set_idle s)
  | Call.hw_radio_get_rssi hw => after (Si4455.hw_radio_get_rssi hw s)
  | Call.hw_radio_get_latched_rssi hw => after (Si4455.hw_radio_get_latched_rssi hw s)
  | Call.ezradio_int_callback hw => after (Si4455.ezradio_int_callback k hw s)

/-- Runs a sequence of calls, one after the other. -/
def run (k : ezradio_cmd_h) : List Call → Driver → Option Driver
  | [], s => some s
  | c :: cs, s =>
    match c.exec k s with
    | some s1 => run k cs s1
    | none => none

/-! ## Observations on the actions of a call -/

/-- The start-receive command of the chip. -/
def Event.is_start_rx : Event → Bool
  | Event.ezradioStartRx _ => true
  | _ => false

/-- A write of `current_state`. -/
def Event.is_state_write : Event → Bool
  | Event.write_current_state _ => true
  | _ => false

/-- A call of `configure_channel` or `configure_syncword_class`, the two calls by which
`start_rx` programs its configuration. -/
def Event.is_configure_rx : Event → Bool
  | Event.configure_channel _ => true
  | Event.configure_syncword_class _ => true
  | _ => false

/-- A call of the registered allocator. -/
def Event.is_alloc : Event → Bool
  | Event.alloc_packet_callback _ _ => true
  | _ => false

/-- A call of the registered release callback. -/
def Event.is_release : Event → Bool
  | Event.release_packet_callback _ _ => true
  | _ => false

/-- A call of the registered rx callback. -/
def Event.is_rx_callback : Event → Bool
  | Event.rx_packet_callback _ _ => true
  | _ => false

/-- A call of the registered tx callback. -/
def Event.is_tx_callback : Event → Bool
  | Event.tx_packet_callback _ _ => true
  | _ => false

/-- A call of the registered RSSI-valid callback. -/
def Event.is_rssi_valid_callback : Event → Bool
  | Event.rssi_valid_callback _ _ => true
  | _ => false

/-- A command sent to the chip. -/
def Event.is_chip_command : Event → Bool
  | Event.ezradioInit => true
  | Event.ezradio_part_info => true
  | Event.ezradioResetTRxFifo => true
  | Event.ezradioStartTx _ _ _ => true
  | Event.ezradioStartRx _ => true
  | Event.ezradio_get_modem_status _ => true
  | Event.ezradio_get_int_status _ _ _ => true
  | Event.ezradio_fifo_info _ => true
  | Event.ezradio_get_packet_info _ _ _ => true
  | Event.ezradio_read_rx_fifo _ => true
  | Event.ezradio_request_device_state => true
  | _ => false

/-- A call of any of the five registered callbacks. -/
def Event.is_callback : Event → Bool
  | Event.alloc_packet_callback _ _ => true
  | Event.release_packet_callback _ _ => true
  | Event.rx_packet_callback _ _ => true
  | Event.tx_packet_callback _ _ => true
  | Event.rssi_valid_callback _ _ => true
  | _ => false

/-- The actions in the life of a received packet: its allocation and its hand-over to the rx
callback or to the release callback. -/
def Event.is_packet_lifecycle : Event → Bool
  | Event.alloc_packet_callback _ _ => true
  | Event.release_packet_callback _ _ => true
  | Event.rx_packet_callback _ _ => true
  | _ => false

/-- The call is `hw_radio_init`. -/
def Call.is_hw_radio_init : Call → Bool
  | Call.hw_radio_init _ _ _ => true
  | _ => false

/-- The actions of the receive step that the claims speak of: the life of the received packet
and the re-arming of the receiver by `start_rx` (its configure calls and the start-receive
command). -/
def Event.is_receive_step (e : Event) : Bool :=
  e.is_packet_lifecycle || e.is_configure_rx || e.is_start_rx

/-! ## Concrete values, for evaluating the model -/

/-- The masks as Silicon Labs' header for this chip family gives them. -/
def sample_masks : ezradio_cmd_h :=
  { EZRADIO_CMD_GET_INT_STATUS_REP_INT_PEND_MODEM_INT_PEND_BIT := 0x02
    EZRADIO_CMD_GET_INT_STATUS_REP_INT_PEND_PH_INT_PEND_BIT := 0x01
    EZRADIO_CMD_GET_INT_STATUS_REP_INT_PEND_CHIP_INT_PEND_BIT := 0x04
    EZRADIO_CMD_GET_INT_STATUS_REP_PH_PEND_PACKET_RX_PEND_BIT := 0x10
    EZRADIO_CMD_GET_INT_STATUS_REP_PH_PEND_PACKET_SENT_PEND_BIT := 0x20
    EZRADIO_CMD_GET_INT_STATUS_REP_CHIP_STATUS_STATE_CHANGE_BIT := 0x10
    EZRADIO_CMD_FIFO_INFO_ARG_FIFO_RX_BIT := 0x02 }

/-- Enumerator values for the initial state. -/
def sample_enumerators : phy_enumerators :=
  { PHY_CODING_PN9 := 0, PHY_CLASS_NORMAL_RATE := 2, PHY_BAND_433 := 2, PHY_SYNCWORD_CLASS0 := 0 }

/-- The driver variables at program start, with `sample_enumerators`. -/
def sample_initial : Driver := Driver.initial sample_enumerators

/-- A receive configuration on center-frequency index 5, sync-word class 1. -/
def sample_rx_cfg : hw_rx_cfg_t :=
  { channel_id :=
      { channel_header := { ch_coding := 0, ch_class := 2, ch_freq_band := 2 }
        center_freq_index := 5 }
    syncword_class := 1 }

/-- A packet of `length` bytes with zeroed metadata. -/
def sample_packet (length : Nat) : hw_radio_packet_t :=
  { rx_meta :=
      { timestamp := 0
        rx_cfg :=
          { channel_id :=
              { channel_header := { ch_coding := 0, ch_class := 0, ch_freq_band := 0 }
                center_freq_index := 0 }
            syncword_class := 0 }
        lqi := 0
        rssi := 0
        crc_status := hw_crc_t.HW_CRC_VALID }
    tx_meta :=
      { timestamp := 0
        tx_cfg :=
          { channel_id :=
              { channel_header := { ch_coding := 0, ch_class := 2, ch_freq_band := 2 }
                center_freq_index := 0 }
            syncword_class := 0
            eirp := 10 } }
    length := length
    data := List.replicate length 0 }

/-- A platform whose chip identifies as part 0x4455 and reports the given interrupt status and
10 received bytes, with raw
RSSI readings 200 (current) and 180 (latched), timer value 1234, and an allocator that returns
a fresh packet of the requested length. -/
def sample_platform (INT_PEND PH_PEND CHIP_STATUS : Nat) : Platform :=
  { PART_INFO_PART := some 0x4455
    GET_INT_STATUS :=
      { INT_PEND := INT_PEND, INT_STATUS := 0, PH_PEND := PH_PEND, PH_STATUS := 0
        MODEM_PEND := 0, MODEM_STATUS := 0, CHIP_PEND := 0, CHIP_STATUS := CHIP_STATUS }
    RX_FIFO_COUNT := 10
    CURR_RSSI := 200
    LATCH_RSSI := 180
    rx_fifo := [1, 2, 3, 4, 5, 6, 7, 8, 9, 10]
    timer_counter_value := 1234
    alloc_packet := fun n => some (sample_packet n) }

/-- A driver in TX: `sample_initial` after `hw_radio_send_packet` of an 8-byte packet with the
tx callback at address 7. -/
def sample_tx : Driver :=
  (hw_radio_send_packet (sample_packet 8) (some 7) sample_initial).drv

/-- A driver in TX with a deferred receive request: `sample_tx` after `hw_radio_set_rx` with
`sample_rx_cfg`. -/
def sample_tx_pending : Driver :=
  (hw_radio_set_rx (sample_platform 0 0 0) sample_rx_cfg none none sample_tx).drv

/-- A driver in RX with allocator 1 and release callback 2 registered and no rx callback:
the initial state after `hw_radio_init` and `hw_radio_set_rx` with `sample_rx_cfg`. -/
def sample_rx : Driver :=
  (hw_radio_set_rx (sample_platform 0 0 0) sample_rx_cfg none none
    (hw_radio_init (sample_platform 0 0 0) (some 1) (some 2) sample_initial).drv).drv

/-- The calls `hw_radio_init`, `hw_radio_send_packet` (8 bytes, tx callback 7) and the
interrupt that reports the packet sent. -/
def sample_calls_tx_done : List Call :=
  [Call.hw_radio_init (sample_platform 0 0 0) (some 1) (some 2),
   Call.hw_radio_send_packet (sample_packet 8) (some 7),
   Call.ezradio_int_callback (sample_platform 0x01 0x20 0)]

/-- The calls `hw_radio_init`, `hw_radio_set_rx`, `hw_radio_send_packet` and `hw_radio_init`
again, during the transmission. -/
def sample_calls_reinit : List Call :=
  [Call.hw_radio_init (sample_platform 0 0 0) (some 1) (some 2),
   Call.hw_radio_set_rx (sample_platform 0 0 0) sample_rx_cfg none none,
   Call.hw_radio_send_packet (sample_packet 8) none,
   Call.hw_radio_init (sample_platform 0 0 0) (some 1) (some 2)]

/-- A driver in RX with allocator 1, release callback 2 and rx callback 3 registered: the
initial state after `hw_radio_init` and `hw_radio_set_rx` with `sample_rx_cfg`. -/
def sample_rx_with_callback : Driver :=
  (hw_radio_set_rx (sample_platform 0 0 0) sample_rx_cfg (some 3) none
    (hw_radio_init (sample_platform 0 0 0) (some 1) (some 2) sample_initial).drv).drv

/-- A platform whose chip does not answer the identification. -/
def sample_platform_no_part : Platform :=
  { sample_platform 0 0 0 with PART_INFO_PART := none }

/-- A second receive configuration, on center-frequency index 9, sync-word class 0. -/
def sample_rx_cfg2 : hw_rx_cfg_t :=
  { channel_id :=
      { channel_header := { ch_coding := 0, ch_class := 2, ch_freq_band := 2 }
        center_freq_index := 9 }
    syncword_class := 0 }

/-- The calls `hw_radio_init` with the allocator 1 and no release callback, and
`hw_radio_set_rx` with `sample_rx_cfg` and no rx callback. -/
def sample_calls_no_release : List Call :=
  [Call.hw_radio_init (sample_platform 0 0 0) (some 1) none,
   Call.hw_radio_set_rx (sample_platform 0 0 0) sample_rx_cfg none none]

/-- A driver in RX with the allocator 1 registered and neither a release callback nor an rx
callback: the initial state after `hw_radio_init` with a NULL release callback and
`hw_radio_set_rx` with a NULL rx callback. -/
def sample_rx_no_release : Driver :=
  (hw_radio_set_rx (sample_platform 0 0 0) sample_rx_cfg none none
    (hw_radio_init (sample_platform 0 0 0) (some 1) none sample_initial).drv).drv

/-! ## Theorems -/

/-- C1: while `current_state` is TX, `hw_radio_send_packet` returns EBUSY for every packet and
every tx callback, leaves every driver variable (in particular `current_state`,
`current_packet`, `pending_rx_cfg`, `should_rx_after_tx_completed` and `tx_packet_callback`)
unchanged and performs no action at all, so it issues no chip command. -/
theorem hw_radio_send_packet_busy (s : Driver) (packet : hw_radio_packet_t)
    (tx_cb : Option Nat) (h : s.current_state = HW_RADIO_STATE_TX) :
    hw_radio_send_packet packet tx_cb s
      = { drv := s, events := [], status := Status.returned EBUSY } := by
  simp [hw_radio_send_packet, h]

/-- Witness of C1 at `sample_tx` with a 70-byte packet. -/
theorem hw_radio_send_packet_busy_witness :
    sample_tx.current_state = HW_RADIO_STATE_TX ∧
    hw_radio_send_packet (sample_packet 70) (some 3) sample_tx
      = { drv := sample_tx, events := [], status := Status.returned EBUSY } :=
  ⟨by decide, hw_radio_send_packet_busy sample_tx (sample_packet 70) (some 3) (by decide)⟩

/-- C2: when `current_state` is not TX, `hw_radio_send_packet` ends in the failed length
assertion if and only if `packet.length >= 63`, and then no driver variable has changed and no
action was performed. -/
theorem hw_radio_send_packet_size (s : Driver) (packet : hw_radio_packet_t)
    (tx_cb : Option Nat) (h : s.current_state ≠ HW_RADIO_STATE_TX) :
    ((hw_radio_send_packet packet tx_cb s).status = Status.assertion_failed
        ↔ 63 ≤ packet.length) ∧
    (63 ≤ packet.length →
      hw_radio_send_packet packet tx_cb s
        = { drv := s, events := [], status := Status.assertion_failed }) := by
  unfold hw_radio_send_packet
  by_cases hl : packet.length < 63
  · have hl2 : ¬ 63 ≤ packet.length := by omega
    simp [h, hl, hl2]
  · have hl2 : 63 ≤ packet.length := by omega
    simp [h, hl2]

/-- Witness of C2 at the initial state with a 63-byte packet. -/
theorem hw_radio_send_packet_size_witness :
    sample_initial.current_state ≠ HW_RADIO_STATE_TX ∧
    (((hw_radio_send_packet (sample_packet 63) none sample_initial).status
        = Status.assertion_failed ↔ 63 ≤ (sample_packet 63).length) ∧
     (63 ≤ (sample_packet 63).length →
        hw_radio_send_packet (sample_packet 63) none sample_initial
          = { drv := sample_initial, events := [], status := Status.assertion_failed })) :=
  ⟨by decide, hw_radio_send_packet_size sample_initial (sample_packet 63) none (by decide)⟩

/-- C3 fails as stated: at the initial state, after `hw_radio_set_rx` with a configuration on
center-frequency index 5 has put the driver in RX, a successful `hw_radio_send_packet` of an
8-byte packet leaves a pending RX config different from that configuration. -/
theorem set_rx_send_packet_pending_counterexample :
    sample_initial.current_state = HW_RADIO_STATE_IDLE ∧
    (hw_radio_set_rx (sample_platform 0 0 0) sample_rx_cfg none none sample_initial).status
      = Status.returned SUCCESS ∧
    (hw_radio_set_rx (sample_platform 0 0 0) sample_rx_cfg none none sample_initial).drv.current_state
      = HW_RADIO_STATE_RX ∧
    (sample_packet 8).length < 63 ∧
    (hw_radio_send_packet (sample_packet 8) none
      (hw_radio_set_rx (sample_platform 0 0 0) sample_rx_cfg none none sample_initial).drv).status
      = Status.returned SUCCESS ∧
    (hw_radio_send_packet (sample_packet 8) none
      (hw_radio_set_rx (sample_platform 0 0 0) sample_rx_cfg none none sample_initial).drv).drv.pending_rx_cfg
      ≠ sample_rx_cfg := by
  decide

/-- C3, amended: starting from IDLE, after `hw_radio_set_rx` with configuration `A` has put
the driver in RX, `hw_radio_send_packet` of a packet `p` with `p.length < 63` returns SUCCESS
and leaves `current_state` TX, `current_packet` equal to `p`, the pending flag set, and the
pending RX config equal to the currently programmed channel id and sync-word class
(`current_channel_id`, `current_syncword_class`), which `hw_radio_set_rx` does not change; the
pending RX config therefore equals `A` exactly when `A` is the programmed configuration. -/
theorem set_rx_send_packet_pending (hw : Platform) (A : hw_rx_cfg_t)
    (rx_cb rssi_valid_cb tx_cb : Option Nat) (s : Driver) (p : hw_radio_packet_t)
    (hidle : s.current_state = HW_RADIO_STATE_IDLE)
    (hrx : (hw_radio_set_rx hw A rx_cb rssi_valid_cb s).drv.current_state = HW_RADIO_STATE_RX)
    (hlen : p.length < 63) :
    (hw_radio_set_rx hw A rx_cb rssi_valid_cb s).status = Status.returned SUCCESS ∧
    (hw_radio_set_rx hw A rx_cb rssi_valid_cb s).drv.current_channel_id = s.current_channel_id ∧
    (hw_radio_set_rx hw A rx_cb rssi_valid_cb s).drv.current_syncword_class
      = s.current_syncword_class ∧
    (hw_radio_send_packet p tx_cb (hw_radio_set_rx hw A rx_cb rssi_valid_cb s).drv).status
      = Status.returned SUCCESS ∧
    (hw_radio_send_packet p tx_cb
      (hw_radio_set_rx hw A rx_cb rssi_valid_cb s).drv).drv.current_state = HW_RADIO_STATE_TX ∧
    (hw_radio_send_packet p tx_cb
      (hw_radio_set_rx hw A rx_cb rssi_valid_cb s).drv).drv.current_packet = some p ∧
    (hw_radio_send_packet p tx_cb
      (hw_radio_set_rx hw A rx_cb rssi_valid_cb s).drv).drv.should_rx_after_tx_completed = true ∧
    (hw_radio_send_packet p tx_cb
      (hw_radio_set_rx hw A rx_cb rssi_valid_cb s).drv).drv.pending_rx_cfg
      = { channel_id := s.current_channel_id, syncword_class := s.current_syncword_class } ∧
    ((hw_radio_send_packet p tx_cb
      (hw_radio_set_rx hw A rx_cb rssi_valid_cb s).drv).drv.pending_rx_cfg = A
      ↔ A = { channel_id := s.current_channel_id, syncword_class := s.current_syncword_class })
    := by
  unfold hw_radio_set_rx at hrx ⊢
  by_cases h1 : rx_cb ≠ none ∧ s.alloc_packet_callback = none
  · simp [h1, hidle] at hrx
  · by_cases h2 : rx_cb ≠ none ∧ s.release_packet_callback = none
    · simp [h1, h2, hidle] at hrx
    · simp only [h1, h2, if_false, hidle]
      cases rssi_valid_cb <;>
        simp [start_rx, hw_radio_send_packet, hlen, eq_comm]

/-- Witness of amended C3 at the initial state. -/
theorem set_rx_send_packet_pending_witness :
    sample_initial.current_state = HW_RADIO_STATE_IDLE ∧
    (hw_radio_send_packet (sample_packet 8) none
      (hw_radio_set_rx (sample_platform 0 0 0) sample_rx_cfg none none
        sample_initial).drv).drv.pending_rx_cfg
      = { channel_id := sample_initial.current_channel_id
          syncword_class := sample_initial.current_syncword_class } :=
  ⟨by decide,
   (set_rx_send_packet_pending (sample_platform 0 0 0) sample_rx_cfg none none none
      sample_initial (sample_packet 8) (by decide) (by decide) (by decide)).2.2.2.2.2.2.2.1⟩

/-- The chip-interrupt part only ever issues the request-device-state command: filtering its
actions by a test that rejects that command leaves nothing. -/
theorem chip_events_filter (k : ezradio_cmd_h) (hw : Platform) (s : Driver)
    (f : Event → Bool) (hf : f Event.ezradio_request_device_state = false) :
    (ezradio_int_callback_chip k hw s).filter f = [] := by
  unfold ezradio_int_callback_chip
  split_ifs <;> simp [hf]

/-- C4: in state TX with the pending flag set (and a packet in flight), an interrupt whose
status has the packet-handler pending bit and the packet-sent bit set returns with
`current_state` RX and the pending flag cleared; `start_rx` runs exactly once with the stored
`pending_rx_cfg`: the only configure calls are those of its channel id and sync-word class, the
chip receives exactly one start-receive command, and the only write of `current_state` is the
one to RX, so the driver never passes through IDLE. -/
theorem tx_completed_pending_rx (k : ezradio_cmd_h) (hw : Platform) (s : Driver)
    (p : hw_radio_packet_t)
    (htx : s.current_state = HW_RADIO_STATE_TX)
    (hflag : s.should_rx_after_tx_completed = true)
    (hpkt : s.current_packet = some p)
    (hph : hw.GET_INT_STATUS.INT_PEND
            &&& k.EZRADIO_CMD_GET_INT_STATUS_REP_INT_PEND_PH_INT_PEND_BIT ≠ 0)
    (hsent : hw.GET_INT_STATUS.PH_PEND
            &&& k.EZRADIO_CMD_GET_INT_STATUS_REP_PH_PEND_PACKET_SENT_PEND_BIT ≠ 0) :
    (ezradio_int_callback k hw s).status = Status.returned () ∧
    (ezradio_int_callback k hw s).drv.current_state = HW_RADIO_STATE_RX ∧
    (ezradio_int_callback k hw s).drv.should_rx_after_tx_completed = false ∧
    (ezradio_int_callback k hw s).drv.pending_rx_cfg = s.pending_rx_cfg ∧
    (ezradio_int_callback k hw s).events.filter Event.is_configure_rx
      = [Event.configure_channel s.pending_rx_cfg.channel_id,
         Event.configure_syncword_class s.pending_rx_cfg.syncword_class] ∧
    (ezradio_int_callback k hw s).events.filter Event.is_start_rx
      = [Event.ezradioStartRx (s.current_channel_id.center_freq_index % 256)] ∧
    (ezradio_int_callback k hw s).events.filter Event.is_state_write
      = [Event.write_current_state HW_RADIO_STATE_RX] := by
  cases htc : s.tx_packet_callback <;> cases hrc : s.rssi_valid_callback <;>
    simp [ezradio_int_callback, ezradio_int_callback_ph, ezradio_int_callback_tx,
      start_rx, switch_to_idle_mode, configure_channel,
      configure_syncword_class, hw_radio_get_rssi, htx, hflag, hpkt, hph, hsent, htc, hrc,
      List.filter_cons, List.filter_append, Event.is_configure_rx,
      Event.is_start_rx, Event.is_state_write,
      chip_events_filter k hw _ Event.is_configure_rx rfl,
      chip_events_filter k hw _ Event.is_start_rx rfl,
      chip_events_filter k hw _ Event.is_state_write rfl]

/-- Witness of C4 at `sample_tx_pending`, with interrupt status PH pending, packet sent. -/
theorem tx_completed_pending_rx_witness :
    sample_tx_pending.current_state = HW_RADIO_STATE_TX ∧
    sample_tx_pending.should_rx_after_tx_completed = true ∧
    (ezradio_int_callback sample_masks (sample_platform 0x01 0x20 0)
      sample_tx_pending).drv.current_state = HW_RADIO_STATE_RX ∧
    (ezradio_int_callback sample_masks (sample_platform 0x01 0x20 0)
      sample_tx_pending).events.filter Event.is_start_rx = [Event.ezradioStartRx 0] :=
  have h := tx_completed_pending_rx sample_masks (sample_platform 0x01 0x20 0)
    sample_tx_pending (sample_packet 8) (by decide) (by decide) (by decide) (by decide)
    (by decide)
  ⟨by decide, by decide, h.2.1, h.2.2.2.2.2.1⟩

/-- C5: in state TX, `hw_radio_set_rx` with configuration `B` and callbacks that satisfy its
precondition returns SUCCESS, leaves `current_state` TX and `current_packet` unchanged, sets
the pending flag and stores `B` as the pending RX config; it performs no action, so it issues
no start-receive command and does not invoke the RSSI-valid callback. -/
theorem set_rx_deferred (hw : Platform) (B : hw_rx_cfg_t) (rx_cb rssi_valid_cb : Option Nat)
    (s : Driver) (htx : s.current_state = HW_RADIO_STATE_TX)
    (hpre : rx_cb ≠ none →
      s.alloc_packet_callback ≠ none ∧ s.release_packet_callback ≠ none) :
    (hw_radio_set_rx hw B rx_cb rssi_valid_cb s).status = Status.returned SUCCESS ∧
    (hw_radio_set_rx hw B rx_cb rssi_valid_cb s).drv.current_state = HW_RADIO_STATE_TX ∧
    (hw_radio_set_rx hw B rx_cb rssi_valid_cb s).drv.current_packet = s.current_packet ∧
    (hw_radio_set_rx hw B rx_cb rssi_valid_cb s).drv.should_rx_after_tx_completed = true ∧
    (hw_radio_set_rx hw B rx_cb rssi_valid_cb s).drv.pending_rx_cfg = B ∧
    (hw_radio_set_rx hw B rx_cb rssi_valid_cb s).events = [] := by
  unfold hw_radio_set_rx
  by_cases hcb : rx_cb = none
  · simp [hcb, htx]
  · have h := hpre hcb
    simp [hcb, h.1, h.2, htx]

/-- Witness of C5 at `sample_tx`, with no rx callback and the RSSI-valid callback at
address 4. -/
theorem set_rx_deferred_witness :
    sample_tx.current_state = HW_RADIO_STATE_TX ∧
    (hw_radio_set_rx (sample_platform 0 0 0) sample_rx_cfg none (some 4) sample_tx).events
      = [] ∧
    (hw_radio_set_rx (sample_platform 0 0 0) sample_rx_cfg none (some 4)
      sample_tx).drv.pending_rx_cfg = sample_rx_cfg :=
  have h := set_rx_deferred (sample_platform 0 0 0) sample_rx_cfg none (some 4) sample_tx
    (by decide) (by decide)
  ⟨by decide, h.2.2.2.2.2, h.2.2.2.2.1⟩

/-- C6: in state TX with the pending flag clear (and a packet `p` in flight), an interrupt
whose status has the packet-handler pending bit and the packet-sent bit set returns with
`current_state` IDLE and the timer value written into `current_packet.tx_meta.timestamp`; the
registered tx callback is invoked exactly once, with that packet, and it is the only callback
invoked (none is invoked when no tx callback is registered); no start-receive command is
issued. -/
theorem tx_completed_idle (k : ezradio_cmd_h) (hw : Platform) (s : Driver)
    (p : hw_radio_packet_t)
    (htx : s.current_state = HW_RADIO_STATE_TX)
    (hflag : s.should_rx_after_tx_completed = false)
    (hpkt : s.current_packet = some p)
    (hph : hw.GET_INT_STATUS.INT_PEND
            &&& k.EZRADIO_CMD_GET_INT_STATUS_REP_INT_PEND_PH_INT_PEND_BIT ≠ 0)
    (hsent : hw.GET_INT_STATUS.PH_PEND
            &&& k.EZRADIO_CMD_GET_INT_STATUS_REP_PH_PEND_PACKET_SENT_PEND_BIT ≠ 0) :
    (ezradio_int_callback k hw s).status = Status.returned () ∧
    (ezradio_int_callback k hw s).drv.current_state = HW_RADIO_STATE_IDLE ∧
    (ezradio_int_callback k hw s).drv.current_packet
      = some { p with tx_meta := { p.tx_meta with timestamp := hw.timer_counter_value } } ∧
    (ezradio_int_callback k hw s).events.filter Event.is_callback
      = (match s.tx_packet_callback with
         | some f =>
           [Event.tx_packet_callback f
             { p with tx_meta := { p.tx_meta with timestamp := hw.timer_counter_value } }]
         | none => []) ∧
    (ezradio_int_callback k hw s).events.filter Event.is_start_rx = [] ∧
    (ezradio_int_callback k hw s).events.filter Event.is_state_write
      = [Event.write_current_state HW_RADIO_STATE_IDLE] := by
  cases htc : s.tx_packet_callback <;>
    simp [ezradio_int_callback, ezradio_int_callback_ph, ezradio_int_callback_tx,
      switch_to_idle_mode, htx, hflag, hpkt, hph, hsent, htc,
      List.filter_cons, List.filter_append, Event.is_callback,
      Event.is_start_rx, Event.is_state_write,
      chip_events_filter k hw _ Event.is_callback rfl,
      chip_events_filter k hw _ Event.is_start_rx rfl,
      chip_events_filter k hw _ Event.is_state_write rfl]

/-- Witness of C6 at `sample_tx`, whose tx callback is at address 7. -/
theorem tx_completed_idle_witness :
    sample_tx.current_state = HW_RADIO_STATE_TX ∧
    sample_tx.should_rx_after_tx_completed = false ∧
    (ezradio_int_callback sample_masks (sample_platform 0x01 0x20 0)
      sample_tx).drv.current_state = HW_RADIO_STATE_IDLE ∧
    (ezradio_int_callback sample_masks (sample_platform 0x01 0x20 0)
      sample_tx).events.filter Event.is_callback
      = [Event.tx_packet_callback 7
          { sample_packet 8 with
            tx_meta := { (sample_packet 8).tx_meta with timestamp := 1234 } }] :=
  have h := tx_completed_idle sample_masks (sample_platform 0x01 0x20 0)
    sample_tx (sample_packet 8) (by decide) (by decide) (by decide) (by decide) (by decide)
  ⟨by decide, by decide, h.2.1, h.2.2.2.1⟩

/-- C7 fails as stated: `hw_radio_init` called in state TX with a packet in flight and the
pending flag set leaves `current_packet` defined and the pending flag set. -/
theorem hw_radio_init_keeps_packet_counterexample :
    sample_tx_pending.current_state = HW_RADIO_STATE_TX ∧
    (hw_radio_init (sample_platform 0 0 0) (some 1) (some 2) sample_tx_pending).drv.current_packet
      = some (sample_packet 8) ∧
    (hw_radio_init (sample_platform 0 0 0) (some 1) (some 2) sample_tx_pending).drv.should_rx_after_tx_completed
      = true := by
  decide

/-- C7, amended: for every prior driver state, `hw_radio_init` returns (without a defined return
value), after it `current_state` is IDLE and the alloc and release callbacks are the ones
passed, and `current_packet` is what it was before the call: the driver holds no packet after
`hw_radio_init` exactly when it held none before. -/
theorem hw_radio_init_resets_state (hw : Platform)
    (alloc_packet_cb release_packet_cb : Option Nat) (s : Driver) :
    (hw_radio_init hw alloc_packet_cb release_packet_cb s).status = Status.returned none ∧
    (hw_radio_init hw alloc_packet_cb release_packet_cb s).drv.current_state
      = HW_RADIO_STATE_IDLE ∧
    (hw_radio_init hw alloc_packet_cb release_packet_cb s).drv.alloc_packet_callback
      = alloc_packet_cb ∧
    (hw_radio_init hw alloc_packet_cb release_packet_cb s).drv.release_packet_callback
      = release_packet_cb ∧
    (hw_radio_init hw alloc_packet_cb release_packet_cb s).drv.current_packet
      = s.current_packet := by
  simp [hw_radio_init]

/-- A call that returned leaves the driver variables of its outcome. -/
theorem after_eq_some {α : Type} (o : Outcome α) (s1 : Driver) (h : after o = some s1) :
    o.drv = s1 := by
  unfold after at h
  split at h <;> simp_all

/-- The driver variables after `start_rx`: only `current_state` changes, to RX. -/
theorem start_rx_state (hw : Platform) (cfg : hw_rx_cfg_t) (s : Driver) :
    (start_rx hw cfg s).1 = { s with current_state := HW_RADIO_STATE_RX } := by
  cases h : s.rssi_valid_callback <;> simp [start_rx, h]

/-- The interrupt callback ends with the driver variables of its packet-handler part. -/
theorem ezradio_int_callback_drv (k : ezradio_cmd_h) (hw : Platform) (s : Driver) :
    (ezradio_int_callback k hw s).drv = (ezradio_int_callback_ph k hw s).drv := by
  simp only [ezradio_int_callback]
  split <;> rfl

/-- A property kept by every single call holds after every sequence of calls. -/
theorem run_preserves (k : ezradio_cmd_h) (P : Driver → Prop)
    (hstep : ∀ (c : Call) (s s1 : Driver), c.exec k s = some s1 → P s → P s1) :
    ∀ (calls : List Call) (s s1 : Driver), run k calls s = some s1 → P s → P s1 := by
  intro calls
  induction calls with
  | nil =>
    intro s s1 h hp
    simp only [run, Option.some.injEq] at h
    exact h ▸ hp
  | cons c cs ih =>
    intro s s1 h hp
    simp only [run] at h
    cases hc : c.exec k s with
    | none => simp [hc] at h
    | some s2 =>
      simp only [hc] at h
      exact ih s2 s1 h (hstep c s s2 hc hp)

/-- Every call keeps: in state TX, `current_packet` is defined. -/
theorem exec_preserves_tx_packet (k : ezradio_cmd_h) (c : Call) (s s1 : Driver)
    (h : c.exec k s = some s1)
    (hinv : s.current_state = HW_RADIO_STATE_TX → s.current_packet ≠ none) :
    s1.current_state = HW_RADIO_STATE_TX → s1.current_packet ≠ none := by
  cases c with
  | hw_radio_init hw a r =>
    have := after_eq_some (hw_radio_init hw a r s) s1 h
    subst this
    simp [hw_radio_init]
  | hw_radio_set_rx hw cfg rx_cb rssi_cb =>
    have := after_eq_some (hw_radio_set_rx hw cfg rx_cb rssi_cb s) s1 h
    subst this
    simp only [hw_radio_set_rx]
    split_ifs <;> simp_all [start_rx_state]
  | hw_radio_send_packet p tx_cb =>
    have := after_eq_some (hw_radio_send_packet p tx_cb s) s1 h
    subst this
    simp only [hw_radio_send_packet]
    split_ifs <;> simp_all
  | hw_radio_set_idle =>
    have := after_eq_some (hw_radio_set_idle s) s1 h
    subst this
    simpa [hw_radio_set_idle] using hinv
  | hw_radio_get_rssi hw =>
    have := after_eq_some (hw_radio_get_rssi hw s) s1 h
    subst this
    simpa [hw_radio_get_rssi] using hinv
  | hw_radio_get_latched_rssi hw =>
    have := after_eq_some (hw_radio_get_latched_rssi hw s) s1 h
    subst this
    simpa [hw_radio_get_latched_rssi] using hinv
  | ezradio_int_callback hw =>
    have := after_eq_some (ezradio_int_callback k hw s) s1 h
    subst this
    rw [ezradio_int_callback_drv]
    simp only [ezradio_int_callback_ph, ezradio_int_callback_rx, ezradio_int_callback_tx,
      switch_to_idle_mode]
    repeat' split
    all_goals simp_all [start_rx_state]

/-- C8 fails as stated: after `hw_radio_init`, `hw_radio_send_packet` and the interrupt that
reports the packet sent, `current_state` is IDLE and `current_packet` is still defined. -/
theorem current_packet_iff_tx_counterexample :
    (run sample_masks sample_calls_tx_done sample_initial).map
        (fun s => (s.current_state, s.current_packet.isSome))
      = some (HW_RADIO_STATE_IDLE, true) := by
  decide

/-- C8, amended: in every state reached from the initial state by a sequence of
`hw_radio_init`, `hw_radio_set_rx`, `hw_radio_send_packet`, `hw_radio_set_idle`, RSSI reads and
interrupts, `current_state == TX` implies that `current_packet` is defined. (The converse
fails: `current_packet` is never cleared.) -/
theorem current_packet_defined_in_tx (k : ezradio_cmd_h) (e : phy_enumerators)
    (calls : List Call) (s : Driver)
    (hrun : run k calls (Driver.initial e) = some s)
    (htx : s.current_state = HW_RADIO_STATE_TX) :
    s.current_packet ≠ none :=
  run_preserves k (fun d => d.current_state = HW_RADIO_STATE_TX → d.current_packet ≠ none)
    (exec_preserves_tx_packet k) calls (Driver.initial e) s hrun
    (by simp [Driver.initial]) htx

/-- Witness of amended C8: the state after `hw_radio_init` and `hw_radio_send_packet`. -/
theorem current_packet_defined_in_tx_witness :
    run sample_masks
        [Call.hw_radio_init (sample_platform 0 0 0) (some 1) (some 2),
         Call.hw_radio_send_packet (sample_packet 8) (some 7)]
        (Driver.initial sample_enumerators)
      = some (hw_radio_send_packet (sample_packet 8) (some 7)
          (hw_radio_init (sample_platform 0 0 0) (some 1) (some 2) sample_initial).drv).drv ∧
    (hw_radio_send_packet (sample_packet 8) (some 7)
      (hw_radio_init (sample_platform 0 0 0) (some 1) (some 2) sample_initial).drv).drv.current_packet ≠ none :=
  ⟨by decide,
   current_packet_defined_in_tx sample_masks sample_enumerators
     [Call.hw_radio_init (sample_platform 0 0 0) (some 1) (some 2),
      Call.hw_radio_send_packet (sample_packet 8) (some 7)]
     _ (by decide) (by decide)⟩

/-- C9, the code at the failing input: after `hw_radio_init`, `hw_radio_set_rx`,
`hw_radio_send_packet` and a second `hw_radio_init`, `current_state` is IDLE and the pending
flag `should_rx_after_tx_completed` is still set. -/
theorem pending_flag_survives_init :
    (run sample_masks sample_calls_reinit sample_initial).map
        (fun s => (s.current_state, s.should_rx_after_tx_completed))
      = some (HW_RADIO_STATE_IDLE, true) := by
  decide

/-- Every call other than `hw_radio_init` keeps: the pending flag is set only in state TX. -/
theorem exec_preserves_pending_in_tx (k : ezradio_cmd_h) (c : Call) (s s1 : Driver)
    (hc : c.is_hw_radio_init = false)
    (h : c.exec k s = some s1)
    (hinv : s.should_rx_after_tx_completed = true → s.current_state = HW_RADIO_STATE_TX) :
    s1.should_rx_after_tx_completed = true → s1.current_state = HW_RADIO_STATE_TX := by
  cases c with
  | hw_radio_init hw a r => simp [Call.is_hw_radio_init] at hc
  | hw_radio_set_rx hw cfg rx_cb rssi_cb =>
    have := after_eq_some (hw_radio_set_rx hw cfg rx_cb rssi_cb s) s1 h
    subst this
    simp only [hw_radio_set_rx]
    split_ifs <;> simp_all [start_rx_state]
  | hw_radio_send_packet p tx_cb =>
    have := after_eq_some (hw_radio_send_packet p tx_cb s) s1 h
    subst this
    simp only [hw_radio_send_packet]
    split_ifs <;> simp_all
  | hw_radio_set_idle =>
    have := after_eq_some (hw_radio_set_idle s) s1 h
    subst this
    simpa [hw_radio_set_idle] using hinv
  | hw_radio_get_rssi hw =>
    have := after_eq_some (hw_radio_get_rssi hw s) s1 h
    subst this
    simpa [hw_radio_get_rssi] using hinv
  | hw_radio_get_latched_rssi hw =>
    have := after_eq_some (hw_radio_get_latched_rssi hw s) s1 h
    subst this
    simpa [hw_radio_get_latched_rssi] using hinv
  | ezradio_int_callback hw =>
    have := after_eq_some (ezradio_int_callback k hw s) s1 h
    subst this
    rw [ezradio_int_callback_drv]
    simp only [ezradio_int_callback_ph, ezradio_int_callback_rx, ezradio_int_callback_tx,
      switch_to_idle_mode]
    repeat' split
    all_goals simp_all [start_rx_state]

/-- The pending flag is set only in state TX in every state reached from a state with that
property by calls none of which is `hw_radio_init`: a call of `hw_radio_init` during a
transmission is the only way to leave the flag set outside TX. -/
theorem pending_flag_only_in_tx_without_init (k : ezradio_cmd_h) :
    ∀ (calls : List Call) (s s1 : Driver),
      (∀ c ∈ calls, c.is_hw_radio_init = false) →
      run k calls s = some s1 →
      (s.should_rx_after_tx_completed = true → s.current_state = HW_RADIO_STATE_TX) →
      s1.should_rx_after_tx_completed = true → s1.current_state = HW_RADIO_STATE_TX := by
  intro calls
  induction calls with
  | nil =>
    intro s s1 _ h hp
    simp only [run, Option.some.injEq] at h
    exact h ▸ hp
  | cons c cs ih =>
    intro s s1 hall h hp
    simp only [run] at h
    cases hc : c.exec k s with
    | none => simp [hc] at h
    | some s2 =>
      simp only [hc] at h
      exact ih s2 s1 (fun c1 hc1 => hall c1 (List.mem_cons_of_mem c hc1)) h
        (exec_preserves_pending_in_tx k c s s2 (hall c (List.mem_cons_self c cs)) hc hp)

/-- The receive step with its callbacks in place: in state RX, with the allocator registered
and returning a packet, and with an rx
callback or a release callback registered, an interrupt whose status has the packet-handler
pending bit set returns, and among its actions the calls of the allocator, of the rx callback
and of the release callback are exactly two, in this order: one call of the allocator with the
received byte count `hw.RX_FIFO_COUNT`, then one hand-over of the packet it returned (with
length, data and `rx_meta` filled in) to the rx callback when one is registered, and to the
release callback when none is. -/
theorem rx_event_alloc_then_one_sink (k : ezradio_cmd_h) (hw : Platform) (s : Driver)
    (a : Nat) (packet : hw_radio_packet_t)
    (hrx : s.current_state = HW_RADIO_STATE_RX)
    (hph : hw.GET_INT_STATUS.INT_PEND
            &&& k.EZRADIO_CMD_GET_INT_STATUS_REP_INT_PEND_PH_INT_PEND_BIT ≠ 0)
    (halloc : s.alloc_packet_callback = some a)
    (hpacket : hw.alloc_packet hw.RX_FIFO_COUNT = some packet)
    (hsink : s.rx_packet_callback ≠ none ∨ s.release_packet_callback ≠ none) :
    (ezradio_int_callback k hw s).status = Status.returned () ∧
    (∀ f : Nat, s.rx_packet_callback = some f →
      (ezradio_int_callback k hw s).events.filter Event.is_packet_lifecycle
        = [Event.alloc_packet_callback a hw.RX_FIFO_COUNT,
           Event.rx_packet_callback f (fill_rx_packet hw s packet)]) ∧
    (∀ g : Nat, s.rx_packet_callback = none → s.release_packet_callback = some g →
      (ezradio_int_callback k hw s).events.filter Event.is_packet_lifecycle
        = [Event.alloc_packet_callback a hw.RX_FIFO_COUNT,
           Event.release_packet_callback g (fill_rx_packet hw s packet)]) := by
  cases hrc : s.rx_packet_callback <;> cases hrl : s.release_packet_callback <;>
    cases hrv : s.rssi_valid_callback <;>
    simp_all [ezradio_int_callback, ezradio_int_callback_ph, ezradio_int_callback_rx,
      start_rx, configure_channel, configure_syncword_class, hw_radio_get_rssi,
      hw_radio_get_latched_rssi, List.filter_cons, List.filter_append,
      Event.is_packet_lifecycle,
      chip_events_filter k hw _ Event.is_packet_lifecycle rfl]

/-- The receive step at `sample_rx` (release callback 2, no rx callback) with 10 received
bytes. -/
theorem rx_event_alloc_then_one_sink_witness :
    sample_rx.current_state = HW_RADIO_STATE_RX ∧
    sample_rx.rx_packet_callback = none ∧
    (ezradio_int_callback sample_masks (sample_platform 0x01 0x10 0)
      sample_rx).events.filter Event.is_packet_lifecycle
      = [Event.alloc_packet_callback 1 10,
         Event.release_packet_callback 2
           (fill_rx_packet (sample_platform 0x01 0x10 0) sample_rx (sample_packet 10))] :=
  have h := rx_event_alloc_then_one_sink sample_masks (sample_platform 0x01 0x10 0)
    sample_rx 1 (sample_packet 10) (by decide) (by decide) (by decide) (by rfl)
    (by decide)
  ⟨by decide, by decide, h.2.2 2 (by decide) (by decide)⟩

/-- C11: in state RX, with the allocator and an rx callback registered and the allocator
returning a packet, an interrupt whose status has the packet-handler pending bit set invokes
the rx callback exactly once, with a packet whose `length` is the received byte count
`hw.RX_FIFO_COUNT`, whose `rx_meta.crc_status` is `HW_CRC_UNAVAILABLE`, whose `rx_meta.lqi` is
0, whose `rx_meta.rssi` is `convert_rssi` of the latched RSSI register (the value
`hw_radio_get_latched_rssi` returns) and whose `rx_meta.rx_cfg.channel_id` is
`current_channel_id`. -/
theorem rx_event_packet_metadata (k : ezradio_cmd_h) (hw : Platform) (s : Driver)
    (a f : Nat) (packet : hw_radio_packet_t)
    (hrx : s.current_state = HW_RADIO_STATE_RX)
    (hph : hw.GET_INT_STATUS.INT_PEND
            &&& k.EZRADIO_CMD_GET_INT_STATUS_REP_INT_PEND_PH_INT_PEND_BIT ≠ 0)
    (halloc : s.alloc_packet_callback = some a)
    (hpacket : hw.alloc_packet hw.RX_FIFO_COUNT = some packet)
    (hcb : s.rx_packet_callback = some f) :
    (ezradio_int_callback k hw s).status = Status.returned () ∧
    (ezradio_int_callback k hw s).events.filter Event.is_rx_callback
      = [Event.rx_packet_callback f (fill_rx_packet hw s packet)] ∧
    (fill_rx_packet hw s packet).length = hw.RX_FIFO_COUNT ∧
    (fill_rx_packet hw s packet).rx_meta.crc_status = hw_crc_t.HW_CRC_UNAVAILABLE ∧
    (fill_rx_packet hw s packet).rx_meta.lqi = 0 ∧
    (fill_rx_packet hw s packet).rx_meta.rssi = convert_rssi hw.LATCH_RSSI ∧
    (hw_radio_get_latched_rssi hw s).status
      = Status.returned (fill_rx_packet hw s packet).rx_meta.rssi ∧
    (fill_rx_packet hw s packet).rx_meta.rx_cfg.channel_id = s.current_channel_id := by
  cases hrv : s.rssi_valid_callback <;>
    simp_all [ezradio_int_callback, ezradio_int_callback_ph, ezradio_int_callback_rx,
      start_rx, configure_channel, configure_syncword_class, hw_radio_get_rssi,
      hw_radio_get_latched_rssi, fill_rx_packet, List.filter_cons, List.filter_append,
      Event.is_rx_callback,
      chip_events_filter k hw _ Event.is_rx_callback rfl]

/-- Witness of C11 at `sample_rx_with_callback` with 10 received bytes. -/
theorem rx_event_packet_metadata_witness :
    sample_rx_with_callback.current_state = HW_RADIO_STATE_RX ∧
    (ezradio_int_callback sample_masks (sample_platform 0x01 0x10 0)
      sample_rx_with_callback).events.filter Event.is_rx_callback
      = [Event.rx_packet_callback 3
          (fill_rx_packet (sample_platform 0x01 0x10 0) sample_rx_with_callback
            (sample_packet 10))] ∧
    (fill_rx_packet (sample_platform 0x01 0x10 0) sample_rx_with_callback
      (sample_packet 10)).length = 10 :=
  have h := rx_event_packet_metadata sample_masks (sample_platform 0x01 0x10 0)
    sample_rx_with_callback 1 3 (sample_packet 10) (by decide) (by decide) (by decide)
    (by rfl) (by decide)
  ⟨by decide, h.2.1, h.2.2.1⟩

/-- C12 fails as stated: at the initial state `hw_radio_set_rx` with a configuration on
center-frequency index 5 and sync-word class 1 returns SUCCESS and leaves the driver in RX,
but `current_channel_id` and `current_syncword_class` are not those of the configuration. -/
theorem set_rx_idle_programmed_counterexample :
    sample_initial.current_state = HW_RADIO_STATE_IDLE ∧
    (hw_radio_set_rx (sample_platform 0 0 0) sample_rx_cfg none none sample_initial).status
      = Status.returned SUCCESS ∧
    (hw_radio_set_rx (sample_platform 0 0 0) sample_rx_cfg none none
      sample_initial).drv.current_state = HW_RADIO_STATE_RX ∧
    (hw_radio_set_rx (sample_platform 0 0 0) sample_rx_cfg none none
      sample_initial).drv.current_channel_id ≠ sample_rx_cfg.channel_id ∧
    (hw_radio_set_rx (sample_platform 0 0 0) sample_rx_cfg none none
      sample_initial).drv.current_syncword_class ≠ sample_rx_cfg.syncword_class := by
  decide

/-- C12, amended: in state IDLE, `hw_radio_set_rx` with configuration `cfg` and callbacks that
satisfy its precondition returns SUCCESS and leaves `current_state` RX; it passes the channel
id and the sync-word class of `cfg` to `configure_channel` and `configure_syncword_class`,
which are not implemented, so `current_channel_id` and `current_syncword_class` keep the
values they had; it calls neither the allocator nor the release callback. -/
theorem set_rx_idle (hw : Platform) (cfg : hw_rx_cfg_t) (rx_cb rssi_valid_cb : Option Nat)
    (s : Driver) (hidle : s.current_state = HW_RADIO_STATE_IDLE)
    (hpre : rx_cb ≠ none →
      s.alloc_packet_callback ≠ none ∧ s.release_packet_callback ≠ none) :
    (hw_radio_set_rx hw cfg rx_cb rssi_valid_cb s).status = Status.returned SUCCESS ∧
    (hw_radio_set_rx hw cfg rx_cb rssi_valid_cb s).drv.current_state = HW_RADIO_STATE_RX ∧
    (hw_radio_set_rx hw cfg rx_cb rssi_valid_cb s).events.filter Event.is_configure_rx
      = [Event.configure_channel cfg.channel_id,
         Event.configure_syncword_class cfg.syncword_class] ∧
    (hw_radio_set_rx hw cfg rx_cb rssi_valid_cb s).drv.current_channel_id
      = s.current_channel_id ∧
    (hw_radio_set_rx hw cfg rx_cb rssi_valid_cb s).drv.current_syncword_class
      = s.current_syncword_class ∧
    (hw_radio_set_rx hw cfg rx_cb rssi_valid_cb s).events.filter Event.is_alloc = [] ∧
    (hw_radio_set_rx hw cfg rx_cb rssi_valid_cb s).events.filter Event.is_release = [] := by
  have h1 : ¬ (rx_cb ≠ none ∧ s.alloc_packet_callback = none) :=
    fun h => (hpre h.1).1 h.2
  have h2 : ¬ (rx_cb ≠ none ∧ s.release_packet_callback = none) :=
    fun h => (hpre h.1).2 h.2
  unfold hw_radio_set_rx
  simp only [h1, h2, if_false, hidle]
  cases rssi_valid_cb <;>
    simp [start_rx, configure_channel, configure_syncword_class, hw_radio_get_rssi,
      List.filter_cons, Event.is_configure_rx, Event.is_alloc, Event.is_release]

/-- Witness of amended C12 at the initial state. -/
theorem set_rx_idle_witness :
    sample_initial.current_state = HW_RADIO_STATE_IDLE ∧
    (hw_radio_set_rx (sample_platform 0 0 0) sample_rx_cfg none (some 4)
      sample_initial).drv.current_state = HW_RADIO_STATE_RX ∧
    (hw_radio_set_rx (sample_platform 0 0 0) sample_rx_cfg none (some 4)
      sample_initial).drv.current_channel_id = sample_initial.current_channel_id :=
  have h := set_rx_idle (sample_platform 0 0 0) sample_rx_cfg none (some 4) sample_initial
    (by decide) (by decide)
  ⟨by decide, h.2.1, h.2.2.2.1⟩

/-- C13: when the allocator or the release callback is not registered, `hw_radio_set_rx` with a
non-NULL rx callback ends in the failed assertion with every driver variable unchanged and no
action performed (nothing is sent to the chip); with a NULL rx callback it returns SUCCESS in
every driver state. -/
theorem set_rx_precondition (hw : Platform) (cfg : hw_rx_cfg_t) (rssi_valid_cb : Option Nat)
    (s : Driver) (f : Nat)
    (h : s.alloc_packet_callback = none ∨ s.release_packet_callback = none) :
    hw_radio_set_rx hw cfg (some f) rssi_valid_cb s
      = { drv := s, events := [], status := Status.assertion_failed } ∧
    ∀ (hw1 : Platform) (cfg1 : hw_rx_cfg_t) (cb : Option Nat) (s1 : Driver),
      (hw_radio_set_rx hw1 cfg1 none cb s1).status = Status.returned SUCCESS := by
  constructor
  · unfold hw_radio_set_rx
    rcases h with h | h
    · simp [h]
    · by_cases ha : s.alloc_packet_callback = none <;> simp [h, ha]
  · intro hw1 cfg1 cb s1
    unfold hw_radio_set_rx
    simp only [ne_eq, not_true_eq_false, false_and, if_false]
    split_ifs <;> rfl

/-- Witness of C13 at the initial state, where no callback is registered. -/
theorem set_rx_precondition_witness :
    (sample_initial.alloc_packet_callback = none ∨
      sample_initial.release_packet_callback = none) ∧
    hw_radio_set_rx (sample_platform 0 0 0) sample_rx_cfg (some 3) (some 4) sample_initial
      = { drv := sample_initial, events := [], status := Status.assertion_failed } :=
  ⟨by decide,
   (set_rx_precondition (sample_platform 0 0 0) sample_rx_cfg (some 4) sample_initial 3
      (by decide)).1⟩

/-- C14: in every driver state `hw_radio_set_idle` returns ERROR, never SUCCESS, and leaves
every driver variable unchanged; in particular `current_state` stays what it was, and no
action is performed. -/
theorem hw_radio_set_idle_unsupported (s : Driver) :
    hw_radio_set_idle s = { drv := s, events := [], status := Status.returned ERROR } ∧
    (hw_radio_set_idle s).status ≠ Status.returned SUCCESS ∧
    (hw_radio_set_idle s).drv.current_state = s.current_state := by
  simp [hw_radio_set_idle]

/-- C15: for every 8-bit raw value, `convert_rssi raw` is `(raw >> 1) - (130 + RSSI_OFFSET)`
with `RSSI_OFFSET = 0`, a value of the signed 16-bit range; `convert_rssi 200 = -30`;
`hw_radio_get_rssi` returns `convert_rssi` of the CURR_RSSI register and
`hw_radio_get_latched_rssi` returns `convert_rssi` of the LATCH_RSSI register. -/
theorem convert_rssi_formula (raw : Nat) (hraw : raw < 256) (hw : Platform) (s : Driver) :
    convert_rssi raw = ((raw >>> 1 : Nat) : Int) - (130 + RSSI_OFFSET) ∧
    RSSI_OFFSET = 0 ∧
    -32768 ≤ convert_rssi raw ∧ convert_rssi raw ≤ 32767 ∧
    convert_rssi 200 = -30 ∧
    (hw_radio_get_rssi hw s).status = Status.returned (convert_rssi hw.CURR_RSSI) ∧
    (hw_radio_get_latched_rssi hw s).status
      = Status.returned (convert_rssi hw.LATCH_RSSI) := by
  have hmod : raw % 256 = raw := Nat.mod_eq_of_lt hraw
  have hshift : raw >>> 1 = raw / 2 := by simp [Nat.shiftRight_eq_div_pow]
  have hformula : convert_rssi raw = ((raw >>> 1 : Nat) : Int) - (130 + RSSI_OFFSET) := by
    unfold convert_rssi to_int16_t RSSI_OFFSET
    rw [hmod, hshift]
    omega
  refine ⟨hformula, rfl, ?_, ?_, by decide, rfl, rfl⟩
  · rw [hformula, hshift]
    unfold RSSI_OFFSET
    omega
  · rw [hformula, hshift]
    unfold RSSI_OFFSET
    omega

/-- Witness of C15 at the raw value 201. -/
theorem convert_rssi_formula_witness :
    (201 : Nat) < 256 ∧ convert_rssi 201 = ((201 >>> 1 : Nat) : Int) - (130 + RSSI_OFFSET) :=
  ⟨by decide,
   (convert_rssi_formula 201 (by decide) (sample_platform 0 0 0) sample_initial).1⟩

/-- C16 fails as stated: with a chip that does not answer the identification,
`hw_radio_init` does not fail: it returns, without a return value, and leaves the driver in
IDLE. -/
theorem hw_radio_init_no_part_counterexample :
    sample_platform_no_part.PART_INFO_PART = none ∧
    (hw_radio_init sample_platform_no_part (some 1) (some 2) sample_initial).status
      = Status.returned none ∧
    (hw_radio_init sample_platform_no_part (some 1) (some 2) sample_initial).drv.current_state
      = HW_RADIO_STATE_IDLE := by
  decide

/-- C16, amended: `hw_radio_init` does not examine the answer of the chip to the
identification: whatever `ezradio_part_info` yields, a valid part or none, the call runs to
its end (it never fails with a hardware error), performs the same actions and leaves
`current_state` IDLE. -/
theorem hw_radio_init_ignores_part_info (hw : Platform) (part : Option Nat)
    (alloc_packet_cb release_packet_cb : Option Nat) (s : Driver) :
    (∃ v, (hw_radio_init hw alloc_packet_cb release_packet_cb s).status
        = Status.returned v) ∧
    after (hw_radio_init hw alloc_packet_cb release_packet_cb s)
      = some (hw_radio_init hw alloc_packet_cb release_packet_cb s).drv ∧
    (hw_radio_init hw alloc_packet_cb release_packet_cb s).drv.current_state
      = HW_RADIO_STATE_IDLE ∧
    hw_radio_init { hw with PART_INFO_PART := part } alloc_packet_cb release_packet_cb s
      = hw_radio_init hw alloc_packet_cb release_packet_cb s := by
  simp [hw_radio_init, after]

/-- C17: in every driver state `hw_radio_get_rssi` and `hw_radio_get_latched_rssi` return a
value and leave every driver variable unchanged, and a second `hw_radio_get_latched_rssi`
call, made while the latched RSSI register of the chip is what it was at the first, returns
the same value. -/
theorem rssi_reads_leave_state (hw hw2 : Platform) (s : Driver)
    (hlatch : hw2.LATCH_RSSI = hw.LATCH_RSSI) :
    (hw_radio_get_rssi hw s).status = Status.returned (convert_rssi hw.CURR_RSSI) ∧
    (hw_radio_get_rssi hw s).drv = s ∧
    (hw_radio_get_latched_rssi hw s).status
      = Status.returned (convert_rssi hw.LATCH_RSSI) ∧
    (hw_radio_get_latched_rssi hw s).drv = s ∧
    (hw_radio_get_latched_rssi hw2 (hw_radio_get_latched_rssi hw s).drv).status
      = (hw_radio_get_latched_rssi hw s).status := by
  simp [hw_radio_get_rssi, hw_radio_get_latched_rssi, hlatch]

/-- Witness of C17 in state TX, the second read made on a platform with other interrupt
status and the same latched RSSI register. -/
theorem rssi_reads_leave_state_witness :
    (sample_platform 0x01 0x20 0).LATCH_RSSI = (sample_platform 0 0 0).LATCH_RSSI ∧
    (hw_radio_get_latched_rssi (sample_platform 0x01 0x20 0)
      (hw_radio_get_latched_rssi (sample_platform 0 0 0) sample_tx).drv).status
      = (hw_radio_get_latched_rssi (sample_platform 0 0 0) sample_tx).status :=
  ⟨by decide,
   (rssi_reads_leave_state (sample_platform 0 0 0) (sample_platform 0x01 0x20 0) sample_tx
      (by decide)).2.2.2.2⟩

/-- C18, the code at the failing input: in state RX, an interrupt whose status has the
packet-handler pending bit set and the packet-received bit clear (packet-handler status 0x08,
another packet-handler event) still runs the receive step:
the allocator is called, the packet is handed to the release callback and the receiver is
re-armed. -/
theorem rx_step_runs_without_packet_rx_bit :
    sample_rx.current_state = HW_RADIO_STATE_RX ∧
    (sample_platform 0x01 0x08 0).GET_INT_STATUS.INT_PEND
      &&& sample_masks.EZRADIO_CMD_GET_INT_STATUS_REP_INT_PEND_PH_INT_PEND_BIT ≠ 0 ∧
    (sample_platform 0x01 0x08 0).GET_INT_STATUS.PH_PEND
      &&& sample_masks.EZRADIO_CMD_GET_INT_STATUS_REP_PH_PEND_PACKET_RX_PEND_BIT = 0 ∧
    (ezradio_int_callback sample_masks (sample_platform 0x01 0x08 0)
      sample_rx).events.filter Event.is_packet_lifecycle
      = [Event.alloc_packet_callback 1 10,
         Event.release_packet_callback 2
           (fill_rx_packet (sample_platform 0x01 0x08 0) sample_rx (sample_packet 10))] ∧
    (ezradio_int_callback sample_masks (sample_platform 0x01 0x08 0)
      sample_rx).events.filter Event.is_start_rx = [Event.ezradioStartRx 0] := by
  decide

/-- In state TX, an interrupt whose status has the packet-handler
pending bit set and the packet-sent bit clear completes nothing: no driver variable changes,
no callback is invoked and `current_state` is not written. -/
theorem tx_not_sent_nothing_completed (k : ezradio_cmd_h) (hw : Platform) (s : Driver)
    (htx : s.current_state = HW_RADIO_STATE_TX)
    (hnot : hw.GET_INT_STATUS.PH_PEND
            &&& k.EZRADIO_CMD_GET_INT_STATUS_REP_PH_PEND_PACKET_SENT_PEND_BIT = 0) :
    (ezradio_int_callback k hw s).status = Status.returned () ∧
    (ezradio_int_callback k hw s).drv = s ∧
    (ezradio_int_callback k hw s).events.filter Event.is_callback = [] ∧
    (ezradio_int_callback k hw s).events.filter Event.is_state_write = [] := by
  by_cases hph : hw.GET_INT_STATUS.INT_PEND
      &&& k.EZRADIO_CMD_GET_INT_STATUS_REP_INT_PEND_PH_INT_PEND_BIT = 0 <;>
    simp [ezradio_int_callback, ezradio_int_callback_ph, htx, hnot, hph,
      List.filter_cons, List.filter_append, Event.is_callback, Event.is_state_write,
      chip_events_filter k hw _ Event.is_callback rfl,
      chip_events_filter k hw _ Event.is_state_write rfl]

/-- C19, the code at the failing input: after `hw_radio_init` and `hw_radio_set_rx` with a
configuration on center-frequency index 5 and sync-word class 1 have put the driver in RX, the
interrupt of a received packet leaves the driver in RX and re-arms the receiver, after the
release callback, by `start_rx` with `pending_rx_cfg`, which `hw_radio_set_rx` did not write:
the configure calls get the all-zero configuration, not the one last programmed. -/
theorem rearm_uses_stale_pending_rx_cfg :
    sample_rx
      = (hw_radio_set_rx (sample_platform 0 0 0) sample_rx_cfg none none
          (hw_radio_init (sample_platform 0 0 0) (some 1) (some 2) sample_initial).drv).drv ∧
    sample_rx.current_state = HW_RADIO_STATE_RX ∧
    (ezradio_int_callback sample_masks (sample_platform 0x01 0x10 0)
      sample_rx).drv.current_state = HW_RADIO_STATE_RX ∧
    (ezradio_int_callback sample_masks (sample_platform 0x01 0x10 0)
      sample_rx).events.filter Event.is_receive_step
      = [Event.alloc_packet_callback 1 10,
         Event.release_packet_callback 2
           (fill_rx_packet (sample_platform 0x01 0x10 0) sample_rx (sample_packet 10)),
         Event.configure_channel sample_initial.pending_rx_cfg.channel_id,
         Event.configure_syncword_class sample_initial.pending_rx_cfg.syncword_class,
         Event.ezradioStartRx 0] ∧
    sample_initial.pending_rx_cfg.channel_id ≠ sample_rx_cfg.channel_id ∧
    sample_initial.pending_rx_cfg.syncword_class ≠ sample_rx_cfg.syncword_class := by
  decide

/-- The re-arming of the receiver in general: `hw_radio_set_rx` called outside TX
leaves `pending_rx_cfg` as it was, and the receive step of the interrupt re-arms the receiver
after the hand-over of the packet, by `start_rx` with `pending_rx_cfg`, and ends in RX. -/
theorem rx_event_rearms_with_pending_rx_cfg (k : ezradio_cmd_h) (hw hw0 : Platform)
    (s : Driver) (A : hw_rx_cfg_t) (cb0 cb1 : Option Nat) (a g : Nat)
    (packet : hw_radio_packet_t)
    (hrx : s.current_state = HW_RADIO_STATE_RX)
    (hph : hw.GET_INT_STATUS.INT_PEND
            &&& k.EZRADIO_CMD_GET_INT_STATUS_REP_INT_PEND_PH_INT_PEND_BIT ≠ 0)
    (halloc : s.alloc_packet_callback = some a)
    (hpacket : hw.alloc_packet hw.RX_FIFO_COUNT = some packet)
    (hnocb : s.rx_packet_callback = none)
    (hrel : s.release_packet_callback = some g) :
    (s.current_state ≠ HW_RADIO_STATE_TX →
      (hw_radio_set_rx hw0 A cb0 cb1 s).drv.pending_rx_cfg = s.pending_rx_cfg) ∧
    (ezradio_int_callback k hw s).drv.current_state = HW_RADIO_STATE_RX ∧
    (ezradio_int_callback k hw s).events.filter Event.is_receive_step
      = [Event.alloc_packet_callback a hw.RX_FIFO_COUNT,
         Event.release_packet_callback g (fill_rx_packet hw s packet),
         Event.configure_channel s.pending_rx_cfg.channel_id,
         Event.configure_syncword_class s.pending_rx_cfg.syncword_class,
         Event.ezradioStartRx (s.current_channel_id.center_freq_index % 256)] := by
  refine ⟨?_, ?_, ?_⟩
  · intro hne
    simp only [hw_radio_set_rx]
    split_ifs <;> simp_all [start_rx_state]
  · cases hrv : s.rssi_valid_callback <;>
      simp_all [ezradio_int_callback, ezradio_int_callback_ph, ezradio_int_callback_rx,
        start_rx]
  · cases hrv : s.rssi_valid_callback <;>
      simp_all [ezradio_int_callback, ezradio_int_callback_ph, ezradio_int_callback_rx,
        start_rx, configure_channel, configure_syncword_class, hw_radio_get_rssi,
        hw_radio_get_latched_rssi, List.filter_cons, List.filter_append,
        Event.is_receive_step, Event.is_packet_lifecycle, Event.is_configure_rx,
        Event.is_start_rx,
        chip_events_filter k hw _ Event.is_receive_step rfl]

/-- C20: an interrupt taken in state IDLE, or whose status has the packet-handler pending bit
clear, returns with every driver variable unchanged, whatever the modem and chip bits of the
status are, and invokes no callback (allocator, release, rx, tx, RSSI-valid). -/
theorem int_callback_without_ph_event (k : ezradio_cmd_h) (hw : Platform) (s : Driver)
    (h : s.current_state = HW_RADIO_STATE_IDLE ∨
         hw.GET_INT_STATUS.INT_PEND
           &&& k.EZRADIO_CMD_GET_INT_STATUS_REP_INT_PEND_PH_INT_PEND_BIT = 0) :
    (ezradio_int_callback k hw s).status = Status.returned () ∧
    (ezradio_int_callback k hw s).drv = s ∧
    (ezradio_int_callback k hw s).events.filter Event.is_callback = [] := by
  rcases h with h | h
  · by_cases hph : hw.GET_INT_STATUS.INT_PEND
        &&& k.EZRADIO_CMD_GET_INT_STATUS_REP_INT_PEND_PH_INT_PEND_BIT = 0 <;>
      simp [ezradio_int_callback, ezradio_int_callback_ph, h, hph,
        List.filter_cons, List.filter_append, Event.is_callback,
        chip_events_filter k hw _ Event.is_callback rfl]
  · simp [ezradio_int_callback, ezradio_int_callback_ph, h,
      List.filter_cons, List.filter_append, Event.is_callback,
      chip_events_filter k hw _ Event.is_callback rfl]

/-- Witness of C20 in state RX with the modem and chip interrupts pending and the chip state
changed, but no packet-handler interrupt. -/
theorem int_callback_without_ph_event_witness :
    (sample_rx.current_state = HW_RADIO_STATE_IDLE ∨
      (sample_platform 0x06 0x30 0x10).GET_INT_STATUS.INT_PEND
        &&& sample_masks.EZRADIO_CMD_GET_INT_STATUS_REP_INT_PEND_PH_INT_PEND_BIT = 0) ∧
    (ezradio_int_callback sample_masks (sample_platform 0x06 0x30 0x10) sample_rx).drv
      = sample_rx ∧
    (ezradio_int_callback sample_masks (sample_platform 0x06 0x30 0x10)
      sample_rx).events.filter Event.is_callback = [] :=
  have h := int_callback_without_ph_event sample_masks (sample_platform 0x06 0x30 0x10)
    sample_rx (Or.inr (by decide))
  ⟨Or.inr (by decide), h.2.1, h.2.2⟩

/-- C21: in state TX (with a packet in flight), `hw_radio_set_rx` with `B1` followed by
`hw_radio_set_rx` with `B2`, both with callbacks that satisfy the precondition, both return
SUCCESS without any action and leave the pending flag set and `pending_rx_cfg` equal to `B2`;
the driver variables are those that the second call alone would have left, so `B1` is kept
nowhere; the interrupt of the completed transmission then enters RX by `start_rx` with `B2`:
its configure calls are those of the channel id and sync-word class of `B2`. -/
theorem deferred_rx_last_write_wins (k : ezradio_cmd_h) (hw hw1 hw2 : Platform) (s : Driver)
    (p : hw_radio_packet_t) (B1 B2 : hw_rx_cfg_t) (rx1 rssi1 rx2 rssi2 : Option Nat)
    (htx : s.current_state = HW_RADIO_STATE_TX)
    (hpkt : s.current_packet = some p)
    (hpre1 : rx1 ≠ none →
      s.alloc_packet_callback ≠ none ∧ s.release_packet_callback ≠ none)
    (hpre2 : rx2 ≠ none →
      s.alloc_packet_callback ≠ none ∧ s.release_packet_callback ≠ none)
    (hph : hw.GET_INT_STATUS.INT_PEND
            &&& k.EZRADIO_CMD_GET_INT_STATUS_REP_INT_PEND_PH_INT_PEND_BIT ≠ 0)
    (hsent : hw.GET_INT_STATUS.PH_PEND
            &&& k.EZRADIO_CMD_GET_INT_STATUS_REP_PH_PEND_PACKET_SENT_PEND_BIT ≠ 0) :
    (hw_radio_set_rx hw1 B1 rx1 rssi1 s).status = Status.returned SUCCESS ∧
    (hw_radio_set_rx hw1 B1 rx1 rssi1 s).events = [] ∧
    (hw_radio_set_rx hw2 B2 rx2 rssi2 (hw_radio_set_rx hw1 B1 rx1 rssi1 s).drv).status
      = Status.returned SUCCESS ∧
    (hw_radio_set_rx hw2 B2 rx2 rssi2 (hw_radio_set_rx hw1 B1 rx1 rssi1 s).drv).events
      = [] ∧
    (hw_radio_set_rx hw2 B2 rx2 rssi2
      (hw_radio_set_rx hw1 B1 rx1 rssi1 s).drv).drv.pending_rx_cfg = B2 ∧
    (hw_radio_set_rx hw2 B2 rx2 rssi2
      (hw_radio_set_rx hw1 B1 rx1 rssi1 s).drv).drv.should_rx_after_tx_completed = true ∧
    (hw_radio_set_rx hw2 B2 rx2 rssi2 (hw_radio_set_rx hw1 B1 rx1 rssi1 s).drv).drv
      = (hw_radio_set_rx hw2 B2 rx2 rssi2 s).drv ∧
    (ezradio_int_callback k hw
      (hw_radio_set_rx hw2 B2 rx2 rssi2
        (hw_radio_set_rx hw1 B1 rx1 rssi1 s).drv).drv).status = Status.returned () ∧
    (ezradio_int_callback k hw
      (hw_radio_set_rx hw2 B2 rx2 rssi2
        (hw_radio_set_rx hw1 B1 rx1 rssi1 s).drv).drv).drv.current_state
      = HW_RADIO_STATE_RX ∧
    (ezradio_int_callback k hw
      (hw_radio_set_rx hw2 B2 rx2 rssi2
        (hw_radio_set_rx hw1 B1 rx1 rssi1 s).drv).drv).drv.should_rx_after_tx_completed
      = false ∧
    (ezradio_int_callback k hw
      (hw_radio_set_rx hw2 B2 rx2 rssi2
        (hw_radio_set_rx hw1 B1 rx1 rssi1 s).drv).drv).events.filter Event.is_configure_rx
      = [Event.configure_channel B2.channel_id,
         Event.configure_syncword_class B2.syncword_class] := by
  have a1 : ¬ (rx1 ≠ none ∧ s.alloc_packet_callback = none) := fun h => (hpre1 h.1).1 h.2
  have r1 : ¬ (rx1 ≠ none ∧ s.release_packet_callback = none) := fun h => (hpre1 h.1).2 h.2
  have a2 : ¬ (rx2 ≠ none ∧ s.alloc_packet_callback = none) := fun h => (hpre2 h.1).1 h.2
  have r2 : ¬ (rx2 ≠ none ∧ s.release_packet_callback = none) := fun h => (hpre2 h.1).2 h.2
  have e1 : hw_radio_set_rx hw1 B1 rx1 rssi1 s
      = { drv := { s with rx_packet_callback := rx1, rssi_valid_callback := rssi1,
                          should_rx_after_tx_completed := true, pending_rx_cfg := B1 }
          events := []
          status := Status.returned SUCCESS } := by
    unfold hw_radio_set_rx
    simp only [a1, r1, if_false, htx, if_true]
  have e2 : hw_radio_set_rx hw2 B2 rx2 rssi2 (hw_radio_set_rx hw1 B1 rx1 rssi1 s).drv
      = { drv := { s with rx_packet_callback := rx2, rssi_valid_callback := rssi2,
                          should_rx_after_tx_completed := true, pending_rx_cfg := B2 }
          events := []
          status := Status.returned SUCCESS } := by
    rw [e1]
    unfold hw_radio_set_rx
    simp only [a2, r2, if_false, htx, if_true]
  have e3 : hw_radio_set_rx hw2 B2 rx2 rssi2 s
      = { drv := { s with rx_packet_callback := rx2, rssi_valid_callback := rssi2,
                          should_rx_after_tx_completed := true, pending_rx_cfg := B2 }
          events := []
          status := Status.returned SUCCESS } := by
    unfold hw_radio_set_rx
    simp only [a2, r2, if_false, htx, if_true]
  rw [e2, e3, e1]
  cases htc : s.tx_packet_callback <;> cases rssi2 <;>
    simp [ezradio_int_callback, ezradio_int_callback_ph, ezradio_int_callback_tx,
      start_rx, switch_to_idle_mode, configure_channel, configure_syncword_class,
      hw_radio_get_rssi, htx, hpkt, hph, hsent, htc,
      List.filter_cons, List.filter_append, Event.is_configure_rx,
      chip_events_filter k hw _ Event.is_configure_rx rfl]

/-- Witness of C21 at `sample_tx` with `sample_rx_cfg` followed by `sample_rx_cfg2`. -/
theorem deferred_rx_last_write_wins_witness :
    sample_tx.current_state = HW_RADIO_STATE_TX ∧
    (hw_radio_set_rx (sample_platform 0 0 0) sample_rx_cfg2 none none
      (hw_radio_set_rx (sample_platform 0 0 0) sample_rx_cfg none none
        sample_tx).drv).drv.pending_rx_cfg = sample_rx_cfg2 ∧
    (ezradio_int_callback sample_masks (sample_platform 0x01 0x20 0)
      (hw_radio_set_rx (sample_platform 0 0 0) sample_rx_cfg2 none none
        (hw_radio_set_rx (sample_platform 0 0 0) sample_rx_cfg none none
          sample_tx).drv).drv).events.filter Event.is_configure_rx
      = [Event.configure_channel sample_rx_cfg2.channel_id,
         Event.configure_syncword_class sample_rx_cfg2.syncword_class] :=
  have h := deferred_rx_last_write_wins sample_masks (sample_platform 0x01 0x20 0)
    (sample_platform 0 0 0) (sample_platform 0 0 0) sample_tx (sample_packet 8)
    sample_rx_cfg sample_rx_cfg2 none none none none
    (by decide) (by decide) (by decide) (by decide) (by decide) (by decide)
  ⟨by decide, h.2.2.2.2.1, h.2.2.2.2.2.2.2.2.2.2⟩

/-- C22: for every 8-bit raw value `convert_rssi raw` lies in the range from -130 to -3, so
it is negative and within the signed 16-bit range; `convert_rssi` is monotonically
non-decreasing on 8-bit values, and an even raw value and its successor give the same result:
`convert_rssi (2 * k) = convert_rssi (2 * k + 1)`. -/
theorem convert_rssi_range (raw raw2 k : Nat) (hraw : raw < 256) (hraw2 : raw2 < 256)
    (hle : raw ≤ raw2) (hk : 2 * k + 1 < 256) :
    -130 ≤ convert_rssi raw ∧ convert_rssi raw ≤ -3 ∧
    convert_rssi raw < 0 ∧
    -32768 ≤ convert_rssi raw ∧ convert_rssi raw ≤ 32767 ∧
    convert_rssi raw ≤ convert_rssi raw2 ∧
    convert_rssi (2 * k) = convert_rssi (2 * k + 1) := by
  have key : ∀ r : Nat, r < 256 → convert_rssi r = ((r / 2 : Nat) : Int) - 130 := by
    intro r hr
    have hmod : r % 256 = r := Nat.mod_eq_of_lt hr
    have hshift : r >>> 1 = r / 2 := by simp [Nat.shiftRight_eq_div_pow]
    unfold convert_rssi to_int16_t RSSI_OFFSET
    rw [hmod, hshift]
    omega
  rw [key raw hraw, key raw2 hraw2, key (2 * k) (by omega), key (2 * k + 1) hk]
  omega

/-- Witness of C22 at the raw values 200 and 255 and at `k = 100`. -/
theorem convert_rssi_range_witness :
    (200 : Nat) < 256 ∧ (255 : Nat) < 256 ∧ (200 : Nat) ≤ 255 ∧ 2 * 100 + 1 < 256 ∧
    convert_rssi 200 ≤ convert_rssi 255 ∧
    convert_rssi (2 * 100) = convert_rssi (2 * 100 + 1) :=
  have h := convert_rssi_range 200 255 100 (by decide) (by decide) (by decide) (by decide)
  ⟨by decide, by decide, by decide, by decide, h.2.2.2.2.2.1, h.2.2.2.2.2.2⟩

/-- The test `(x & z) == z` for a one-bit mask `z = 2 ^ j` is the test of bit `j` of `x`. -/
theorem and_two_pow_eq_iff (x j : Nat) : x &&& 2 ^ j = 2 ^ j ↔ x.testBit j = true := by
  constructor
  · intro h
    have := congrArg (fun n => Nat.testBit n j) h
    simpa [Nat.testBit_and, Nat.testBit_two_pow] using this
  · intro h
    apply Nat.eq_of_testBit_eq
    intro i
    by_cases hij : j = i
    · subst hij
      simp [Nat.testBit_and, Nat.testBit_two_pow, h]
    · simp [Nat.testBit_and, Nat.testBit_two_pow, hij]

/-- A one-character string chosen by a test. -/
theorem ite_singleton (c : Prop) [Decidable c] (a b : Char) :
    (if c then [a] else [b]) = [if c then a else b] := by
  split <;> rfl

/-- The loop of `byte_to_binary` entered with mask 128 and the empty string runs 8 times and
builds the bits 7 down to 0 of `x`. -/
theorem byte_to_binary_loop_eq (x : Nat) :
    byte_to_binary_loop x 128 [] 0
      = ([if x.testBit 7 then '1' else '0', if x.testBit 6 then '1' else '0',
          if x.testBit 5 then '1' else '0', if x.testBit 4 then '1' else '0',
          if x.testBit 3 then '1' else '0', if x.testBit 2 then '1' else '0',
          if x.testBit 1 then '1' else '0', if x.testBit 0 then '1' else '0'], 8) := by
  have h7 : x &&& 128 = 128 ↔ x.testBit 7 = true := and_two_pow_eq_iff x 7
  have h6 : x &&& 64 = 64 ↔ x.testBit 6 = true := and_two_pow_eq_iff x 6
  have h5 : x &&& 32 = 32 ↔ x.testBit 5 = true := and_two_pow_eq_iff x 5
  have h4 : x &&& 16 = 16 ↔ x.testBit 4 = true := and_two_pow_eq_iff x 4
  have h3 : x &&& 8 = 8 ↔ x.testBit 3 = true := and_two_pow_eq_iff x 3
  have h2 : x &&& 4 = 4 ↔ x.testBit 2 = true := and_two_pow_eq_iff x 2
  have h1 : x &&& 2 = 2 ↔ x.testBit 1 = true := and_two_pow_eq_iff x 1
  have h0 : x &&& 1 = 1 ↔ x.testBit 0 = true := and_two_pow_eq_iff x 0
  have e : byte_to_binary_loop x 128 [] 0
      = ((if x &&& 128 = 128 then ['1'] else ['0']) ++
          ((if x &&& 64 = 64 then ['1'] else ['0']) ++
            ((if x &&& 32 = 32 then ['1'] else ['0']) ++
              ((if x &&& 16 = 16 then ['1'] else ['0']) ++
                ((if x &&& 8 = 8 then ['1'] else ['0']) ++
                  ((if x &&& 4 = 4 then ['1'] else ['0']) ++
                    ((if x &&& 2 = 2 then ['1'] else ['0']) ++
                      (if x &&& 1 = 1 then ['1'] else ['0']))))))), 8) := by
    simp [byte_to_binary_loop]
  rw [e]
  simp only [ite_singleton, List.singleton_append, h7, h6, h5, h4, h3, h2, h1, h0]

/-- C23: for every 8-bit value `x`, the loop of `byte_to_binary` ends after exactly 8
iterations and `byte_to_binary x` is a string of exactly 8 characters, each '0' or '1', whose
character at position `i` (counted from 0) is '1' if and only if bit `7 - i` of `x` is set: the
bits of `x` from the most significant to the least significant; with its terminator the
string fills the 9 bytes of the buffer. -/
theorem byte_to_binary_msb_first (x : Nat) (hx : x < 256) :
    byte_to_binary_iterations x = 8 ∧
    (byte_to_binary x).length = 8 ∧
    (∀ c ∈ byte_to_binary x, c = '0' ∨ c = '1') ∧
    (∀ i : Nat, i < 8 →
      (byte_to_binary x)[i]? = some (if x.testBit (7 - i) then '1' else '0')) ∧
    (∀ i : Nat, i < 8 →
      ((byte_to_binary x)[i]? = some '1' ↔ x.testBit (7 - i) = true)) ∧
    (byte_to_binary x).length + 1 ≤ 9 := by
  have hmod : x % 256 = x := Nat.mod_eq_of_lt hx
  have hget : ∀ i : Nat, i < 8 →
      (byte_to_binary x)[i]? = some (if x.testBit (7 - i) then '1' else '0') := by
    intro i hi
    unfold byte_to_binary
    rw [hmod, byte_to_binary_loop_eq]
    interval_cases i <;> rfl
  refine ⟨?_, ?_, ?_, hget, ?_, ?_⟩
  · unfold byte_to_binary_iterations
    rw [hmod, byte_to_binary_loop_eq]
  · unfold byte_to_binary
    rw [hmod, byte_to_binary_loop_eq]
    rfl
  · unfold byte_to_binary
    rw [hmod, byte_to_binary_loop_eq]
    intro c hc
    simp only [List.mem_cons, List.mem_singleton, List.not_mem_nil, or_false] at hc
    rcases hc with h | h | h | h | h | h | h | h <;> rw [h] <;> split <;> simp
  · intro i hi
    rw [hget i hi]
    cases x.testBit (7 - i) <;> simp
  · unfold byte_to_binary
    rw [hmod, byte_to_binary_loop_eq]
    simp

/-- Witness of C23 at `x = 0xA5`, whose rendering is 10100101. -/
theorem byte_to_binary_msb_first_witness :
    (0xA5 : Nat) < 256 ∧
    byte_to_binary_iterations 0xA5 = 8 ∧
    (byte_to_binary 0xA5).length = 8 ∧
    (byte_to_binary 0xA5)[2]? = some (if Nat.testBit 0xA5 (7 - 2) then '1' else '0') ∧
    byte_to_binary 0xA5 = ['1', '0', '1', '0', '0', '1', '0', '1'] :=
  have h := byte_to_binary_msb_first 0xA5 (by decide)
  ⟨by decide, h.1, h.2.1, h.2.2.2.1 2 (by decide),
   by
     simp [byte_to_binary, byte_to_binary_loop]
     decide⟩

/-- C10, the code at the failing input: `hw_radio_init` with an allocator and a NULL release
callback and `hw_radio_set_rx` with a NULL rx callback both return (the assertions of
`hw_radio_set_rx` look at the allocator and the release callback only for a non-NULL rx
callback) and leave the driver in RX; the interrupt of a received packet of 10 bytes then
calls the allocator once, with 10, and ends in the call of the NULL release callback: the
allocated packet is handed to neither sink. -/
theorem rx_event_without_release_reaches_no_sink :
    run sample_masks sample_calls_no_release sample_initial = some sample_rx_no_release ∧
    sample_rx_no_release.current_state = HW_RADIO_STATE_RX ∧
    sample_rx_no_release.rx_packet_callback = none ∧
    sample_rx_no_release.release_packet_callback = none ∧
    (ezradio_int_callback sample_masks (sample_platform 0x01 0x10 0)
      sample_rx_no_release).status = Status.null_pointer_used ∧
    (ezradio_int_callback sample_masks (sample_platform 0x01 0x10 0)
      sample_rx_no_release).events.filter Event.is_packet_lifecycle
      = [Event.alloc_packet_callback 1 10] := by
  decide

end Si4455
